import Mathlib

/-! # amtterm `ssl.c`: the secure transport session

A shallow embedding of `src/ssl.c` and the properties of its five operations
(`sslinit`, `sslexit`, `sslready`, `sslread`, `sslwrite`) in its three builds:
`USE_OPENSSL`, `USE_GNUTLS` and the build without TLS.

The C code talks to libc and to a TLS engine.  Every such call is performed
against an environment `Env`, an arbitrary deterministic state machine that
answers each call; the calls made and the values they returned are recorded, in
order, in the trace of the `World`.  Pointers and handles are integers, `0` is
`NULL`.
-/

set_option linter.unusedVariables false
set_option linter.dupNamespace false

/-! ## The environment -/

/-- A C pointer or engine handle; `0` is `NULL`. -/
abbrev Ptr := Int

/-- The `int` a value becomes when it is passed where the callee takes an `int`
(32-bit two's complement). -/
def int32 (v : Int) : Int := (v + 2 ^ 31) % 2 ^ 32 - 2 ^ 31

/-- The verification modes `sslinit` hands to `SSL_CTX_set_verify`. -/
inductive VerifyMode
  | SSL_VERIFY_NONE
  | SSL_VERIFY_PEER
  deriving DecidableEq

/-- The calls of libc, OpenSSL and GnuTLS that `ssl.c` makes, with the arguments
that matter, together with `close` and `gnutls_bye`, which it never makes. -/
inductive Call
  -- libc
  | malloc
  | free (p : Ptr)
  | perror
  | fprintf
  | usleep (usec : Nat)
  | read (fd : Int) (buf : Ptr) (count : Nat)
  | write (fd : Int) (buf : Ptr) (count : Nat)
  | close (fd : Int)
  -- OpenSSL
  | SSL_load_error_strings
  | SSL_library_init
  | TLSv1_2_client_method
  | SSL_CTX_new (meth : Ptr)
  | SSL_CTX_set_options (sctx : Ptr)
  | SSL_CTX_load_verify_locations (sctx : Ptr) (cafile : Ptr)
  | SSL_CTX_set_verify_depth (sctx : Ptr) (depth : Int)
  | SSL_CTX_set_verify (sctx : Ptr) (mode : VerifyMode)
  | SSL_new (sctx : Ptr)
  | SSL_set_fd (ssl : Ptr) (fd : Int)
  | SSL_connect (ssl : Ptr)
  | SSL_get_error (ssl : Ptr) (ret : Int)
  | ERR_print_errors_fp
  | SSL_shutdown (ssl : Ptr)
  | SSL_free (ssl : Ptr)
  | SSL_CTX_free (sctx : Ptr)
  | SSL_pending (ssl : Ptr)
  | SSL_read (ssl : Ptr) (buf : Ptr) (num : Int)
  | SSL_write (ssl : Ptr) (buf : Ptr) (num : Int)
  -- GnuTLS
  | gnutls_global_init
  | gnutls_global_deinit
  | gnutls_certificate_allocate_credentials
  | gnutls_certificate_free_credentials (cred : Ptr)
  | gnutls_certificate_set_verify_flags (cred : Ptr)
  | gnutls_certificate_set_flags (cred : Ptr)
  | gnutls_certificate_set_x509_system_trust (cred : Ptr)
  | gnutls_certificate_set_x509_trust_file (cred : Ptr) (cafile : Ptr)
  | gnutls_certificate_set_verify_function (cred : Ptr)
  | gnutls_init
  | gnutls_deinit (ssl : Ptr)
  | gnutls_priority_set_direct (ssl : Ptr)
  | gnutls_credentials_set (ssl : Ptr) (cred : Ptr)
  | gnutls_transport_set_int (ssl : Ptr) (fd : Int)
  | gnutls_handshake_set_timeout (ssl : Ptr)
  | gnutls_handshake (ssl : Ptr)
  | gnutls_error_is_fatal (err : Int)
  | gnutls_strerror (err : Int)
  | gnutls_record_check_pending (ssl : Ptr)
  | gnutls_record_recv (ssl : Ptr) (buf : Ptr) (count : Nat)
  | gnutls_record_send (ssl : Ptr) (buf : Ptr) (count : Nat)
  | gnutls_bye (ssl : Ptr)
  deriving DecidableEq

/-- What a call gives back: its return value and, for the calls that store a
handle through a pointer argument (`gnutls_init`,
`gnutls_certificate_allocate_credentials`), the handle stored. -/
structure Reply where
  ret : Int
  out : Ptr

/-- One performed call with the value it returned. -/
structure Event where
  call : Call
  ret : Int
  out : Ptr
  deriving DecidableEq

/-- The world outside the program: a state machine answering every call. -/
structure Env (σ : Type) where
  respond : σ → Call → Reply × σ

/-- The state of the environment and the calls performed so far, oldest first. -/
structure World (σ : Type) where
  st : σ
  trace : List Event

/-- The world before any call. -/
def World.start {σ : Type} (s : σ) : World σ := ⟨s, []⟩

/-- Perform one call: ask the environment, record the event. -/
def perform {σ : Type} (E : Env σ) (c : Call) (w : World σ) : Reply × World σ :=
  ((E.respond w.st c).1,
   ⟨(E.respond w.st c).2,
    w.trace ++ [⟨c, (E.respond w.st c).1.ret, (E.respond w.st c).1.out⟩]⟩)

/-! ## Constants of the engine headers -/

/-- From `openssl/ssl.h`. -/
def SSL_ERROR_SSL : Int := 1
/-- From `openssl/ssl.h`. -/
def SSL_ERROR_WANT_READ : Int := 2
/-- From `openssl/ssl.h`. -/
def SSL_ERROR_WANT_WRITE : Int := 3
/-- From `openssl/ssl.h`. -/
def SSL_ERROR_WANT_X509_LOOKUP : Int := 4
/-- From `openssl/ssl.h`. -/
def SSL_ERROR_ZERO_RETURN : Int := 6

/-- From `gnutls/gnutls.h`. -/
def GNUTLS_E_AGAIN : Int := -28
/-- From `gnutls/gnutls.h`. -/
def GNUTLS_E_REHANDSHAKE : Int := -37
/-- From `gnutls/gnutls.h`. -/
def GNUTLS_E_INVALID_REQUEST : Int := -50
/-- From `gnutls/gnutls.h`. -/
def GNUTLS_E_INTERRUPTED : Int := -52
/-- From `gnutls/gnutls.h`. -/
def GNUTLS_E_PUSH_ERROR : Int := -53
/-- From `gnutls/gnutls.h`. -/
def GNUTLS_E_PULL_ERROR : Int := -54

/-! ## The `USE_OPENSSL` build -/

namespace OpenSSL

/-- The `struct ctx` of the OpenSSL build, with the address `malloc` gave it. -/
structure ctx where
  self : Ptr
  fd : Int
  ssl : Ptr
  ctx : Ptr
  deriving DecidableEq

/-- `newctx`: allocate a zeroed `struct ctx` holding `fd`. -/
def newctx {σ : Type} (E : Env σ) (fd : Int) (w : World σ) : Option ctx × World σ :=
  let m := perform E .malloc w
  if m.1.ret = 0 then
    (none, (perform E .perror m.2).2)
  else
    (some ⟨m.1.ret, fd, 0, 0⟩, m.2)

/-- Label `err1` of `sslinit`. -/
def err1 {σ : Type} (E : Env σ) (x : ctx) (w : World σ) : Option ctx × World σ :=
  (none, (perform E (.free x.self) w).2)

/-- Label `err2` of `sslinit`, falling through to `err1`. -/
def err2 {σ : Type} (E : Env σ) (x : ctx) (w : World σ) : Option ctx × World σ :=
  err1 E x (perform E (.SSL_CTX_free x.ctx) w).2

/-- Label `err3` of `sslinit`, falling through to `err2`. -/
def err3 {σ : Type} (E : Env σ) (x : ctx) (w : World σ) : Option ctx × World σ :=
  err2 E x (perform E (.SSL_free x.ssl) w).2

/-- Label `repeat` of `sslinit`: the handshake step with its retry counter `c`. -/
def sslinit_repeat {σ : Type} (E : Env σ) (x : ctx) (c : Nat) (w : World σ) :
    Option ctx × World σ :=
  let r := perform E (.SSL_connect x.ssl) w
  if r.1.ret ≠ 1 then
    let e := perform E (.SSL_get_error x.ssl r.1.ret) r.2
    if e.1.ret = SSL_ERROR_WANT_READ ∨ e.1.ret = SSL_ERROR_WANT_WRITE then
      if c + 1 < 100 then
        sslinit_repeat E x (c + 1) (perform E (.usleep 10000) e.2).2
      else
        err3 E x (perform E .ERR_print_errors_fp e.2).2
    else
      err3 E x (perform E .ERR_print_errors_fp e.2).2
  else
    (some x, r.2)
termination_by 100 - c

/-- Lines 99 to 133 of `sslinit`: verification policy, `SSL_new`, `SSL_set_fd`,
then the handshake step. -/
def sslinit_verify {σ : Type} (E : Env σ) (x1 : ctx) (untrusted : Int) (w : World σ) :
    Option ctx × World σ :=
  let w5 := (perform E (.SSL_CTX_set_verify_depth x1.ctx 5) w).2
  let w6 :=
    if untrusted ≠ 0 then (perform E (.SSL_CTX_set_verify x1.ctx .SSL_VERIFY_NONE) w5).2
    else (perform E (.SSL_CTX_set_verify x1.ctx .SSL_VERIFY_PEER) w5).2
  let s := perform E (.SSL_new x1.ctx) w6
  let x2 : ctx := { x1 with ssl := s.1.ret }
  if x2.ssl = 0 then
    err2 E x2 (perform E .ERR_print_errors_fp s.2).2
  else
    let f := perform E (.SSL_set_fd x2.ssl x2.fd) s.2
    if f.1.ret = 0 then
      err3 E x2 (perform E .ERR_print_errors_fp f.2).2
    else
      sslinit_repeat E x2 0 f.2

/-- Lines 76 to 97 of `sslinit`, the path taken when TLS is requested: library
set-up, `SSL_CTX_new` and the trust-anchor bundle, then on to the verification
policy.  `TLSv1_2_client_method` exists from OpenSSL 1.0.1 on, so the version
test around `SSL_CTX_set_options` holds in every build that compiles. -/
def sslinit_tls {σ : Type} (E : Env σ) (x0 : ctx) (cacert : Ptr) (untrusted : Int)
    (w : World σ) : Option ctx × World σ :=
  let w1 := (perform E .SSL_load_error_strings w).2
  let w2 := (perform E .SSL_library_init w1).2
  let m := perform E .TLSv1_2_client_method w2
  let n := perform E (.SSL_CTX_new m.1.ret) m.2
  let x1 : ctx := { x0 with ctx := n.1.ret }
  if x1.ctx = 0 then
    err1 E x1 (perform E .ERR_print_errors_fp n.2).2
  else
    let w3 := (perform E (.SSL_CTX_set_options x1.ctx) n.2).2
    if cacert ≠ 0 then
      let l := perform E (.SSL_CTX_load_verify_locations x1.ctx cacert) w3
      if l.1.ret = 0 then
        err2 E x1 (perform E .ERR_print_errors_fp l.2).2
      else
        sslinit_verify E x1 untrusted l.2
    else
      sslinit_verify E x1 untrusted w3

/-- `sslinit` of the OpenSSL build. -/
def sslinit {σ : Type} (E : Env σ) (fd : Int) (cacert : Ptr) (untrusted : Int)
    (w : World σ) : Option ctx × World σ :=
  match newctx E fd w with
  | (none, w0) => (none, w0)
  | (some x0, w0) =>
    if cacert = 0 ∧ untrusted = 0 then (some x0, w0)
    else sslinit_tls E x0 cacert untrusted w0

/-- `sslexit` of the OpenSSL build. -/
def sslexit {σ : Type} (E : Env σ) (x : ctx) (w : World σ) : World σ :=
  if x.ssl ≠ 0 then
    let w1 := (perform E (.SSL_shutdown x.ssl) w).2
    let w2 := (perform E (.SSL_free x.ssl) w1).2
    let w3 := (perform E (.SSL_CTX_free x.ctx) w2).2
    (perform E (.free x.self) w3).2
  else
    (perform E (.free x.self) w).2

/-- `sslready` of the OpenSSL build. -/
def sslready {σ : Type} (E : Env σ) (x : ctx) (w : World σ) : Int × World σ :=
  if x.ssl ≠ 0 then ((perform E (.SSL_pending x.ssl) w).1.ret, (perform E (.SSL_pending x.ssl) w).2)
  else (0, w)

/-- Label `repeat` of `sslread`: one `SSL_read` and the `switch` on its error,
with the retry counter `c`. -/
def sslread_repeat {σ : Type} (E : Env σ) (x : ctx) (buf : Ptr) (count : Nat) (c : Nat)
    (w : World σ) : Int × World σ :=
  let r := perform E (.SSL_read x.ssl buf (int32 count)) w
  if 0 < r.1.ret then (r.1.ret, r.2) else
  let e := perform E (.SSL_get_error x.ssl r.1.ret) r.2
  if e.1.ret = SSL_ERROR_WANT_READ ∨ e.1.ret = SSL_ERROR_WANT_WRITE then
    if c + 1 < 100 then
      sslread_repeat E x buf count (c + 1) (perform E (.usleep 10000) e.2).2
    else
      (-1, e.2)
  else if e.1.ret = SSL_ERROR_WANT_X509_LOOKUP then (-1, e.2)
  else if e.1.ret = SSL_ERROR_ZERO_RETURN then (0, e.2)
  else if e.1.ret = SSL_ERROR_SSL then (-1, (perform E .ERR_print_errors_fp e.2).2)
  else (-1, e.2)
termination_by 100 - c

/-- `sslread` of the OpenSSL build. -/
def sslread {σ : Type} (E : Env σ) (x : ctx) (buf : Ptr) (count : Nat) (w : World σ) :
    Int × World σ :=
  if x.ssl = 0 then ((perform E (.read x.fd buf count) w).1.ret, (perform E (.read x.fd buf count) w).2)
  else if count = 0 then (0, w)
  else sslread_repeat E x buf count 0 w

/-- Label `repeat` of `sslwrite`: one `SSL_write` and the `switch` on its error,
with the retry counter `c`. -/
def sslwrite_repeat {σ : Type} (E : Env σ) (x : ctx) (buf : Ptr) (count : Nat) (c : Nat)
    (w : World σ) : Int × World σ :=
  let r := perform E (.SSL_write x.ssl buf (int32 count)) w
  if 0 < r.1.ret then (r.1.ret, r.2) else
  let e := perform E (.SSL_get_error x.ssl r.1.ret) r.2
  if e.1.ret = SSL_ERROR_WANT_READ ∨ e.1.ret = SSL_ERROR_WANT_WRITE then
    if c + 1 < 100 then
      sslwrite_repeat E x buf count (c + 1) (perform E (.usleep 10000) e.2).2
    else
      (-1, e.2)
  else if e.1.ret = SSL_ERROR_WANT_X509_LOOKUP then (-1, e.2)
  else if e.1.ret = SSL_ERROR_ZERO_RETURN then (0, e.2)
  else if e.1.ret = SSL_ERROR_SSL then (-1, (perform E .ERR_print_errors_fp e.2).2)
  else (-1, e.2)
termination_by 100 - c

/-- `sslwrite` of the OpenSSL build. -/
def sslwrite {σ : Type} (E : Env σ) (x : ctx) (buf : Ptr) (count : Nat) (w : World σ) :
    Int × World σ :=
  if x.ssl = 0 then ((perform E (.write x.fd buf count) w).1.ret, (perform E (.write x.fd buf count) w).2)
  else if count = 0 then (0, w)
  else sslwrite_repeat E x buf count 0 w

end OpenSSL

/-! ## The `USE_GNUTLS` build -/

/-- How far a function of the GnuTLS build got: it returned, or its handshake
loop, which has no bound of its own, was still running when the attempts
allowed to it ran out. -/
inductive Run (α σ : Type)
  | returned (a : α) (w : World σ)
  | unfinished (w : World σ)

namespace GnuTLS

/-- The `struct ctx` of the GnuTLS build, with the address `malloc` gave it. -/
structure ctx where
  self : Ptr
  fd : Int
  ssl : Ptr
  cred : Ptr
  deriving DecidableEq

/-- `newctx`: allocate a zeroed `struct ctx` holding `fd`. -/
def newctx {σ : Type} (E : Env σ) (fd : Int) (w : World σ) : Option ctx × World σ :=
  let m := perform E .malloc w
  if m.1.ret = 0 then
    (none, (perform E .perror m.2).2)
  else
    (some ⟨m.1.ret, fd, 0, 0⟩, m.2)

/-- The diagnostic `fprintf(stderr, "...%s\n", gnutls_strerror(r))`. -/
def report {σ : Type} (E : Env σ) (r : Int) (w : World σ) : World σ :=
  (perform E .fprintf (perform E (.gnutls_strerror r) w).2).2

/-- The loop `do r = gnutls_handshake(ssl); while (r < 0 && !gnutls_error_is_fatal(r));`
run for at most `fuel` attempts. -/
def handshake_loop {σ : Type} (E : Env σ) (ssl : Ptr) : Nat → World σ → Run Int σ
  | 0, w => .unfinished w
  | fuel + 1, w =>
    let r := perform E (.gnutls_handshake ssl) w
    if r.1.ret < 0 then
      let f := perform E (.gnutls_error_is_fatal r.1.ret) r.2
      if f.1.ret = 0 then handshake_loop E ssl fuel f.2
      else .returned r.1.ret f.2
    else .returned r.1.ret r.2

/-- Label `err1` of `sslinit`. -/
def err1 {σ : Type} (E : Env σ) (x : ctx) (w : World σ) : Run (Option ctx) σ :=
  .returned none (perform E (.free x.self) w).2

/-- Label `err2` of `sslinit`, falling through to `err1`. -/
def err2 {σ : Type} (E : Env σ) (x : ctx) (w : World σ) : Run (Option ctx) σ :=
  err1 E x (perform E .gnutls_global_deinit w).2

/-- Label `err3` of `sslinit`, falling through to `err2`. -/
def err3 {σ : Type} (E : Env σ) (x : ctx) (w : World σ) : Run (Option ctx) σ :=
  err2 E x (perform E (.gnutls_certificate_free_credentials x.cred) w).2

/-- Label `err4` of `sslinit`, falling through to `err3`. -/
def err4 {σ : Type} (E : Env σ) (x : ctx) (w : World σ) : Run (Option ctx) σ :=
  err3 E x (perform E (.gnutls_deinit x.ssl) w).2

/-- Lines 303 to 343 of `sslinit`: `gnutls_init`, priorities, credentials,
transport, then the handshake loop. -/
def sslinit_session {σ : Type} (E : Env σ) (fuel : Nat) (x1 : ctx) (w : World σ) :
    Run (Option ctx) σ :=
  let i := perform E .gnutls_init w
  let x2 : ctx := { x1 with ssl := i.1.out }
  if i.1.ret ≠ 0 then
    err3 E x2 (report E i.1.ret i.2)
  else
    let p := perform E (.gnutls_priority_set_direct x2.ssl) i.2
    if p.1.ret ≠ 0 then
      let w1 := report E p.1.ret p.2
      let w2 := if p.1.ret = GNUTLS_E_INVALID_REQUEST then (perform E .fprintf w1).2 else w1
      err4 E x2 w2
    else
      let s := perform E (.gnutls_credentials_set x2.ssl x2.cred) p.2
      if s.1.ret ≠ 0 then
        err4 E x2 (report E s.1.ret s.2)
      else
        let w3 := (perform E (.gnutls_transport_set_int x2.ssl x2.fd) s.2).2
        let w4 := (perform E (.gnutls_handshake_set_timeout x2.ssl) w3).2
        match handshake_loop E x2.ssl fuel w4 with
        | .unfinished w5 => .unfinished w5
        | .returned r w5 =>
          if r < 0 then err4 E x2 (report E r w5)
          else .returned (some x2) w5

/-- Lines 266 to 301 of `sslinit`, the path taken when TLS is requested: global
set-up, the credentials and the trust policy, then on to the engine session.
The identifier `xcred` of the untrusted branch is declared nowhere in the file
and is taken as a parameter. -/
def sslinit_tls {σ : Type} (E : Env σ) (fuel : Nat) (xcred : Ptr) (x0 : ctx) (cacert : Ptr)
    (untrusted : Int) (w : World σ) : Run (Option ctx) σ :=
  let g := perform E .gnutls_global_init w
  if g.1.ret ≠ 0 then
    err1 E x0 (report E g.1.ret g.2)
  else
    let a := perform E .gnutls_certificate_allocate_credentials g.2
    let x1 : ctx := { x0 with cred := a.1.out }
    if a.1.ret ≠ 0 then
      err2 E x1 (report E a.1.ret a.2)
    else if untrusted ≠ 0 then
      let w1 := (perform E (.gnutls_certificate_set_verify_flags xcred) a.2).2
      let w2 := (perform E (.gnutls_certificate_set_flags xcred) w1).2
      let w3 := (perform E (.gnutls_certificate_set_x509_system_trust xcred) w2).2
      sslinit_session E fuel x1 w3
    else
      let t := perform E (.gnutls_certificate_set_x509_trust_file x1.cred cacert) a.2
      if t.1.ret < 0 then
        err3 E x1 (report E t.1.ret t.2)
      else
        sslinit_session E fuel x1
          (perform E (.gnutls_certificate_set_verify_function x1.cred) t.2).2

/-- `sslinit` of the GnuTLS build; `fuel` bounds the attempts of the handshake
loop. -/
def sslinit {σ : Type} (E : Env σ) (fuel : Nat) (xcred : Ptr) (fd : Int) (cacert : Ptr)
    (untrusted : Int) (w : World σ) : Run (Option ctx) σ :=
  match newctx E fd w with
  | (none, w0) => .returned none w0
  | (some x0, w0) =>
    if cacert = 0 ∧ untrusted = 0 then .returned (some x0) w0
    else sslinit_tls E fuel xcred x0 cacert untrusted w0

/-- `sslexit` of the GnuTLS build. -/
def sslexit {σ : Type} (E : Env σ) (x : ctx) (w : World σ) : World σ :=
  if x.ssl ≠ 0 then
    let w1 := (perform E (.gnutls_deinit x.ssl) w).2
    let w2 := (perform E (.gnutls_certificate_free_credentials x.cred) w1).2
    let w3 := (perform E .gnutls_global_deinit w2).2
    (perform E (.free x.self) w3).2
  else
    (perform E (.free x.self) w).2

/-- `sslready` of the GnuTLS build; the `size_t` of
`gnutls_record_check_pending` is returned as an `int`. -/
def sslready {σ : Type} (E : Env σ) (x : ctx) (w : World σ) : Int × World σ :=
  if x.ssl ≠ 0 then
    (int32 (perform E (.gnutls_record_check_pending x.ssl) w).1.ret,
     (perform E (.gnutls_record_check_pending x.ssl) w).2)
  else (0, w)

/-- Label `repeat` of `sslread`: one `gnutls_record_recv` and the `switch` on
its result with its fall-through cases; `c` is the retry counter, `fuel` bounds
the attempts of each rehandshake loop. -/
def sslread_repeat {σ : Type} (E : Env σ) (fuel : Nat) (x : ctx) (buf : Ptr) (count : Nat)
    (c : Nat) (w : World σ) : Run Int σ :=
  let l := perform E (.gnutls_record_recv x.ssl buf count) w
  if 0 < l.1.ret then .returned l.1.ret l.2
  else if l.1.ret = GNUTLS_E_REHANDSHAKE then
    match handshake_loop E x.ssl fuel l.2 with
    | .unfinished w1 => .unfinished w1
    | .returned r w1 =>
      if r < 0 then .returned (-1) (report E r w1)
      else if c + 1 < 100 then
        sslread_repeat E fuel x buf count (c + 1) (perform E (.usleep 10000) w1).2
      else .returned (-1) (report E l.1.ret w1)
  else if l.1.ret = GNUTLS_E_INTERRUPTED ∨ l.1.ret = GNUTLS_E_AGAIN then
    if c + 1 < 100 then
      sslread_repeat E fuel x buf count (c + 1) (perform E (.usleep 10000) l.2).2
    else .returned (-1) (report E l.1.ret l.2)
  else if l.1.ret = GNUTLS_E_PUSH_ERROR ∨ l.1.ret = GNUTLS_E_PULL_ERROR then
    .returned (-1) l.2
  else .returned (-1) (report E l.1.ret l.2)
termination_by 100 - c

/-- `sslread` of the GnuTLS build. -/
def sslread {σ : Type} (E : Env σ) (fuel : Nat) (x : ctx) (buf : Ptr) (count : Nat)
    (w : World σ) : Run Int σ :=
  if x.ssl = 0 then
    .returned (perform E (.read x.fd buf count) w).1.ret (perform E (.read x.fd buf count) w).2
  else if count = 0 then .returned 0 w
  else sslread_repeat E fuel x buf count 0 w

/-- Label `repeat` of `sslwrite`: one `gnutls_record_send` and the `switch` on
its result with its fall-through cases; `c` is the retry counter, `fuel` bounds
the attempts of each rehandshake loop. -/
def sslwrite_repeat {σ : Type} (E : Env σ) (fuel : Nat) (x : ctx) (buf : Ptr) (count : Nat)
    (c : Nat) (w : World σ) : Run Int σ :=
  let l := perform E (.gnutls_record_send x.ssl buf count) w
  if 0 < l.1.ret then .returned l.1.ret l.2
  else if l.1.ret = GNUTLS_E_REHANDSHAKE then
    match handshake_loop E x.ssl fuel l.2 with
    | .unfinished w1 => .unfinished w1
    | .returned r w1 =>
      if r < 0 then .returned (-1) (report E r w1)
      else if c + 1 < 100 then
        sslwrite_repeat E fuel x buf count (c + 1) (perform E (.usleep 10000) w1).2
      else .returned (-1) (report E l.1.ret w1)
  else if l.1.ret = GNUTLS_E_INTERRUPTED ∨ l.1.ret = GNUTLS_E_AGAIN then
    if c + 1 < 100 then
      sslwrite_repeat E fuel x buf count (c + 1) (perform E (.usleep 10000) l.2).2
    else .returned (-1) (report E l.1.ret l.2)
  else if l.1.ret = GNUTLS_E_PUSH_ERROR ∨ l.1.ret = GNUTLS_E_PULL_ERROR then
    .returned (-1) l.2
  else .returned (-1) (report E l.1.ret l.2)
termination_by 100 - c

/-- `sslwrite` of the GnuTLS build. -/
def sslwrite {σ : Type} (E : Env σ) (fuel : Nat) (x : ctx) (buf : Ptr) (count : Nat)
    (w : World σ) : Run Int σ :=
  if x.ssl = 0 then
    .returned (perform E (.write x.fd buf count) w).1.ret (perform E (.write x.fd buf count) w).2
  else if count = 0 then .returned 0 w
  else sslwrite_repeat E fuel x buf count 0 w

end GnuTLS

/-! ## The build without TLS -/

namespace NoTLS

/-- The `struct ctx` of the build without TLS, with the address `malloc` gave it. -/
structure ctx where
  self : Ptr
  fd : Int
  deriving DecidableEq

/-- `newctx`: allocate a zeroed `struct ctx` holding `fd`. -/
def newctx {σ : Type} (E : Env σ) (fd : Int) (w : World σ) : Option ctx × World σ :=
  let m := perform E .malloc w
  if m.1.ret = 0 then
    (none, (perform E .perror m.2).2)
  else
    (some ⟨m.1.ret, fd⟩, m.2)

/-- `sslinit` of the build without TLS. -/
def sslinit {σ : Type} (E : Env σ) (fd : Int) (cacert : Ptr) (untrusted : Int)
    (w : World σ) : Option ctx × World σ :=
  newctx E fd w

/-- `sslexit` of the build without TLS. -/
def sslexit {σ : Type} (E : Env σ) (x : ctx) (w : World σ) : World σ :=
  (perform E (.free x.self) w).2

/-- `sslready` of the build without TLS. -/
def sslready {σ : Type} (E : Env σ) (x : ctx) (w : World σ) : Int × World σ :=
  (0, w)

/-- `sslread` of the build without TLS. -/
def sslread {σ : Type} (E : Env σ) (x : ctx) (buf : Ptr) (count : Nat) (w : World σ) :
    Int × World σ :=
  ((perform E (.read x.fd buf count) w).1.ret, (perform E (.read x.fd buf count) w).2)

/-- `sslwrite` of the build without TLS. -/
def sslwrite {σ : Type} (E : Env σ) (x : ctx) (buf : Ptr) (count : Nat) (w : World σ) :
    Int × World σ :=
  ((perform E (.write x.fd buf count) w).1.ret, (perform E (.write x.fd buf count) w).2)

end NoTLS

/-! ## Observations on traces -/

/-- The microseconds of the `usleep` calls of a trace, in order. -/
def sleeps (t : List Event) : List Nat :=
  t.filterMap fun e => match e.call with
    | .usleep u => some u
    | _ => none

/-- How many events of a trace are calls of the kind `p`. -/
def callCount (p : Call → Bool) (t : List Event) : Nat :=
  t.countP fun e => p e.call

/-- The value returned by the last call of the kind `p` in a trace: scan the
trace and remember the value of the latest such call. -/
def lastRet (p : Call → Bool) (t : List Event) : Option Int :=
  t.foldl (fun acc e => if p e.call then some e.ret else acc) none

/-- The calls of a trace, in order, without the values they returned. -/
def calls (t : List Event) : List Call := t.map Event.call

/-- Recognises `SSL_read`. -/
def isSSL_read : Call → Bool
  | .SSL_read _ _ _ => true
  | _ => false

/-- Recognises `SSL_write`. -/
def isSSL_write : Call → Bool
  | .SSL_write _ _ _ => true
  | _ => false

/-- Recognises `SSL_connect`. -/
def isSSL_connect : Call → Bool
  | .SSL_connect _ => true
  | _ => false

/-- Recognises `gnutls_record_recv`. -/
def isRecordRecv : Call → Bool
  | .gnutls_record_recv _ _ _ => true
  | _ => false

/-- Recognises `gnutls_record_send`. -/
def isRecordSend : Call → Bool
  | .gnutls_record_send _ _ _ => true
  | _ => false

/-- Recognises `gnutls_handshake`. -/
def isHandshake : Call → Bool
  | .gnutls_handshake _ => true
  | _ => false

/-- Recognises `SSL_get_error`. -/
def isSSL_get_error : Call → Bool
  | .SSL_get_error _ _ => true
  | _ => false

/-- Recognises `gnutls_bye`. -/
def isBye : Call → Bool
  | .gnutls_bye _ => true
  | _ => false

/-- Recognises `close`. -/
def isClose : Call → Bool
  | .close _ => true
  | _ => false

/-- Recognises `SSL_CTX_load_verify_locations`. -/
def isLoadVerify : Call → Bool
  | .SSL_CTX_load_verify_locations _ _ => true
  | _ => false

/-- Recognises `gnutls_certificate_set_x509_trust_file`. -/
def isTrustFile : Call → Bool
  | .gnutls_certificate_set_x509_trust_file _ _ => true
  | _ => false

/-- Recognises `gnutls_certificate_set_verify_function`. -/
def isSetVerifyFunction : Call → Bool
  | .gnutls_certificate_set_verify_function _ => true
  | _ => false

/-- Recognises `gnutls_handshake_set_timeout`, the call right before the
handshake loop of the GnuTLS `sslinit`. -/
def isHandshakeSetTimeout : Call → Bool
  | .gnutls_handshake_set_timeout _ => true
  | _ => false

/-- Recognises `SSL_new`. -/
def isSSL_new : Call → Bool
  | .SSL_new _ => true
  | _ => false

/-- Recognises `gnutls_init`. -/
def isGnutlsInit : Call → Bool
  | .gnutls_init => true
  | _ => false

/-- The calls that go to libc rather than to a TLS engine. -/
def isLibc : Call → Bool
  | .malloc | .free _ | .perror | .fprintf | .usleep _ | .read _ _ _ | .write _ _ _
  | .close _ => true
  | _ => false

/-- The modes given to `SSL_CTX_set_verify` in a trace, in order. -/
def verifyModes (t : List Event) : List VerifyMode :=
  t.filterMap fun e => match e.call with
    | .SSL_CTX_set_verify _ m => some m
    | _ => none

/-- The world a run has reached, returned or not. -/
def Run.world {α σ : Type} : Run α σ → World σ
  | .returned _ w => w
  | .unfinished w => w

/-- The objects `sslinit` acquires and releases, with their handles. -/
inductive Resource
  | memory (p : Ptr)
  | ssl_ctx (h : Ptr)
  | ssl (h : Ptr)
  | global
  | credentials (h : Ptr)
  | session (h : Ptr)
  deriving DecidableEq

/-- The objects successfully acquired in a trace, in order: a `malloc`,
`SSL_CTX_new` or `SSL_new` that returned a non-null pointer, a
`gnutls_global_init`, `gnutls_certificate_allocate_credentials` or `gnutls_init`
that returned 0. -/
def acquired (t : List Event) : List Resource :=
  t.filterMap fun e => match e.call with
    | .malloc => if e.ret ≠ 0 then some (.memory e.ret) else none
    | .SSL_CTX_new _ => if e.ret ≠ 0 then some (.ssl_ctx e.ret) else none
    | .SSL_new _ => if e.ret ≠ 0 then some (.ssl e.ret) else none
    | .gnutls_global_init => if e.ret = 0 then some .global else none
    | .gnutls_certificate_allocate_credentials =>
      if e.ret = 0 then some (.credentials e.out) else none
    | .gnutls_init => if e.ret = 0 then some (.session e.out) else none
    | _ => none

/-- The objects released in a trace, in order. -/
def released (t : List Event) : List Resource :=
  t.filterMap fun e => match e.call with
    | .free p => some (.memory p)
    | .SSL_CTX_free h => some (.ssl_ctx h)
    | .SSL_free h => some (.ssl h)
    | .gnutls_global_deinit => some .global
    | .gnutls_certificate_free_credentials h => some (.credentials h)
    | .gnutls_deinit h => some (.session h)
    | _ => none

/-- A stage of the OpenSSL `sslinit` other than the handshake failed at this
event: `malloc`, `SSL_CTX_new` or `SSL_new` returned `NULL`, or
`SSL_CTX_load_verify_locations` or `SSL_set_fd` returned 0. -/
def OpenSSL.stageFailed (e : Event) : Bool :=
  match e.call with
  | .malloc => decide (e.ret = 0)
  | .SSL_CTX_new _ => decide (e.ret = 0)
  | .SSL_CTX_load_verify_locations _ _ => decide (e.ret = 0)
  | .SSL_new _ => decide (e.ret = 0)
  | .SSL_set_fd _ _ => decide (e.ret = 0)
  | _ => false

/-- The handshake stage of the OpenSSL `sslinit` failed in this trace: the last
`SSL_connect` made did not return 1. -/
def OpenSSL.connectFailed (t : List Event) : Bool :=
  match lastRet isSSL_connect t with
  | some r => decide (r ≠ 1)
  | none => false

/-- Some stage of the OpenSSL `sslinit` failed in this trace. -/
def OpenSSL.failed (t : List Event) : Bool :=
  t.any OpenSSL.stageFailed || OpenSSL.connectFailed t

/-- A stage of the GnuTLS `sslinit` failed at this event: `malloc` returned
`NULL`; `gnutls_global_init`, `gnutls_certificate_allocate_credentials`,
`gnutls_init`, `gnutls_priority_set_direct` or `gnutls_credentials_set` returned
non-zero; `gnutls_certificate_set_x509_trust_file` returned a negative value; or
`gnutls_error_is_fatal` declared the error of a handshake attempt fatal. -/
def GnuTLS.stageFailed (e : Event) : Bool :=
  match e.call with
  | .malloc => decide (e.ret = 0)
  | .gnutls_global_init => decide (e.ret ≠ 0)
  | .gnutls_certificate_allocate_credentials => decide (e.ret ≠ 0)
  | .gnutls_certificate_set_x509_trust_file _ _ => decide (e.ret < 0)
  | .gnutls_init => decide (e.ret ≠ 0)
  | .gnutls_priority_set_direct _ => decide (e.ret ≠ 0)
  | .gnutls_credentials_set _ _ => decide (e.ret ≠ 0)
  | .gnutls_error_is_fatal _ => decide (e.ret ≠ 0)
  | _ => false

/-- Some stage of the GnuTLS `sslinit` failed in this trace. -/
def GnuTLS.failed (t : List Event) : Bool :=
  t.any GnuTLS.stageFailed

/-- Every handshake attempt of the environment reports a transient condition:
`SSL_connect` does not succeed and `SSL_get_error` gives `SSL_ERROR_WANT_READ`
or `SSL_ERROR_WANT_WRITE`. -/
def OpenSSL.ConnectTransient {σ : Type} (E : Env σ) : Prop :=
  (∀ s ssl, (E.respond s (.SSL_connect ssl)).1.ret ≠ 1) ∧
  (∀ s ssl l, (E.respond s (.SSL_get_error ssl l)).1.ret = SSL_ERROR_WANT_READ ∨
    (E.respond s (.SSL_get_error ssl l)).1.ret = SSL_ERROR_WANT_WRITE)

/-- Every handshake attempt of the environment reports a transient condition:
`gnutls_handshake` returns a negative code that `gnutls_error_is_fatal` says is
not fatal. -/
def GnuTLS.HandshakeTransient {σ : Type} (E : Env σ) : Prop :=
  (∀ s ssl, (E.respond s (.gnutls_handshake ssl)).1.ret < 0) ∧
  (∀ s r, (E.respond s (.gnutls_error_is_fatal r)).1.ret = 0)

/-- Engine creation and the handshake succeed in the environment: `malloc`,
`SSL_CTX_new`, `SSL_new` and `SSL_set_fd` succeed, `SSL_connect` returns 1. -/
def OpenSSL.EngineSucceeds {σ : Type} (E : Env σ) : Prop :=
  (∀ s, (E.respond s .malloc).1.ret ≠ 0) ∧
  (∀ s m, (E.respond s (.SSL_CTX_new m)).1.ret ≠ 0) ∧
  (∀ s h, (E.respond s (.SSL_new h)).1.ret ≠ 0) ∧
  (∀ s h fd, (E.respond s (.SSL_set_fd h fd)).1.ret ≠ 0) ∧
  (∀ s h, (E.respond s (.SSL_connect h)).1.ret = 1)

/-- The trust-anchor bundle cannot be loaded in the environment. -/
def OpenSSL.BundleFails {σ : Type} (E : Env σ) : Prop :=
  ∀ s h p, (E.respond s (.SSL_CTX_load_verify_locations h p)).1.ret = 0

/-- Engine creation and the handshake succeed in the environment: `malloc`,
`gnutls_global_init`, `gnutls_certificate_allocate_credentials`, `gnutls_init`,
`gnutls_priority_set_direct` and `gnutls_credentials_set` succeed,
`gnutls_handshake` returns no error. -/
def GnuTLS.EngineSucceeds {σ : Type} (E : Env σ) : Prop :=
  (∀ s, (E.respond s .malloc).1.ret ≠ 0) ∧
  (∀ s, (E.respond s .gnutls_global_init).1.ret = 0) ∧
  (∀ s, (E.respond s .gnutls_certificate_allocate_credentials).1.ret = 0) ∧
  (∀ s, (E.respond s .gnutls_init).1.ret = 0) ∧
  (∀ s h, (E.respond s (.gnutls_priority_set_direct h)).1.ret = 0) ∧
  (∀ s h c, (E.respond s (.gnutls_credentials_set h c)).1.ret = 0) ∧
  (∀ s h, 0 ≤ (E.respond s (.gnutls_handshake h)).1.ret)

/-- The trust-anchor bundle cannot be loaded in the environment. -/
def GnuTLS.BundleFails {σ : Type} (E : Env σ) : Prop :=
  ∀ s h p, (E.respond s (.gnutls_certificate_set_x509_trust_file h p)).1.ret < 0

/-- Every `SSL_read` of the environment reports a transient condition: it
returns no data and `SSL_get_error` gives `SSL_ERROR_WANT_READ` or
`SSL_ERROR_WANT_WRITE`. -/
def OpenSSL.ReadTransient {σ : Type} (E : Env σ) : Prop :=
  (∀ s ssl buf n, (E.respond s (.SSL_read ssl buf n)).1.ret ≤ 0) ∧
  (∀ s ssl l, (E.respond s (.SSL_get_error ssl l)).1.ret = SSL_ERROR_WANT_READ ∨
    (E.respond s (.SSL_get_error ssl l)).1.ret = SSL_ERROR_WANT_WRITE)

/-- Every `SSL_write` of the environment reports a transient condition. -/
def OpenSSL.WriteTransient {σ : Type} (E : Env σ) : Prop :=
  (∀ s ssl buf n, (E.respond s (.SSL_write ssl buf n)).1.ret ≤ 0) ∧
  (∀ s ssl l, (E.respond s (.SSL_get_error ssl l)).1.ret = SSL_ERROR_WANT_READ ∨
    (E.respond s (.SSL_get_error ssl l)).1.ret = SSL_ERROR_WANT_WRITE)

/-- Every `gnutls_record_recv` of the environment reports a transient condition:
`GNUTLS_E_AGAIN` or `GNUTLS_E_INTERRUPTED`. -/
def GnuTLS.RecvTransient {σ : Type} (E : Env σ) : Prop :=
  ∀ s ssl buf n, (E.respond s (.gnutls_record_recv ssl buf n)).1.ret = GNUTLS_E_AGAIN ∨
    (E.respond s (.gnutls_record_recv ssl buf n)).1.ret = GNUTLS_E_INTERRUPTED

/-- Every `gnutls_record_send` of the environment reports a transient condition. -/
def GnuTLS.SendTransient {σ : Type} (E : Env σ) : Prop :=
  ∀ s ssl buf n, (E.respond s (.gnutls_record_send ssl buf n)).1.ret = GNUTLS_E_AGAIN ∨
    (E.respond s (.gnutls_record_send ssl buf n)).1.ret = GNUTLS_E_INTERRUPTED

/-- What a read or write that exhausts its retries looks like: the result is
`-1`, the engine call `p` was made 100 times, and there were 99 sleeps of
10000 microseconds each. -/
def BoundedFailure {σ : Type} (p : Call → Bool) (r : Int) (w : World σ) : Prop :=
  r = -1 ∧ callCount p w.trace = 100 ∧ sleeps w.trace = List.replicate 99 10000

/-- The results `sslread` and `sslwrite` may give for a non-zero count: a
positive count that is the value of the last engine call of the kind `p`, or 0,
or `-1`. -/
def ResultOK (p : Call → Bool) (r : Int) (t : List Event) : Prop :=
  (0 < r ∧ lastRet p t = some r) ∨ r = 0 ∨ r = -1

/-- A failure at the first attempt: the result is `-1`, the engine call `p` was
made once and there was no sleep. -/
def FailsAtOnce (p : Call → Bool) (r : Int) (t : List Event) : Prop :=
  r = -1 ∧ callCount p t = 1 ∧ sleeps t = []

/-- The first engine call `c` made in state `s` reports a fatal error: it gives
no data and `SSL_get_error` gives a code that is neither transient
(`SSL_ERROR_WANT_READ`, `SSL_ERROR_WANT_WRITE`) nor `SSL_ERROR_ZERO_RETURN`. -/
def OpenSSL.FatalFirst {σ : Type} (E : Env σ) (s : σ) (ssl : Ptr) (c : Call) : Prop :=
  (E.respond s c).1.ret ≤ 0 ∧
  (E.respond (E.respond s c).2 (.SSL_get_error ssl (E.respond s c).1.ret)).1.ret
    ≠ SSL_ERROR_WANT_READ ∧
  (E.respond (E.respond s c).2 (.SSL_get_error ssl (E.respond s c).1.ret)).1.ret
    ≠ SSL_ERROR_WANT_WRITE ∧
  (E.respond (E.respond s c).2 (.SSL_get_error ssl (E.respond s c).1.ret)).1.ret
    ≠ SSL_ERROR_ZERO_RETURN

/-- The first engine call `c` made in state `s` reports a fatal error: a
negative code that is none of the codes the loop retries after
(`GNUTLS_E_AGAIN`, `GNUTLS_E_INTERRUPTED`, and the rehandshake request
`GNUTLS_E_REHANDSHAKE`). -/
def GnuTLS.FatalFirst {σ : Type} (E : Env σ) (s : σ) (c : Call) : Prop :=
  (E.respond s c).1.ret < 0 ∧
  (E.respond s c).1.ret ≠ GNUTLS_E_AGAIN ∧
  (E.respond s c).1.ret ≠ GNUTLS_E_INTERRUPTED ∧
  (E.respond s c).1.ret ≠ GNUTLS_E_REHANDSHAKE

instance {σ : Type} (p : Call → Bool) (r : Int) (w : World σ) :
    Decidable (BoundedFailure p r w) := by
  unfold BoundedFailure
  infer_instance

instance (p : Call → Bool) (r : Int) (t : List Event) : Decidable (ResultOK p r t) := by
  unfold ResultOK
  infer_instance

instance (p : Call → Bool) (r : Int) (t : List Event) : Decidable (FailsAtOnce p r t) := by
  unfold FailsAtOnce
  infer_instance

instance {σ : Type} (E : Env σ) (s : σ) (ssl : Ptr) (c : Call) :
    Decidable (OpenSSL.FatalFirst E s ssl c) := by
  unfold OpenSSL.FatalFirst
  infer_instance

instance {σ : Type} (E : Env σ) (s : σ) (c : Call) : Decidable (GnuTLS.FatalFirst E s c) := by
  unfold GnuTLS.FatalFirst
  infer_instance

/-! ## Environments used as concrete inputs -/

/-- An environment without state that answers each call by `f`. -/
def Env.const (f : Call → Reply) : Env Unit := ⟨fun s c => (f c, s)⟩

/-- An engine that always signals that it needs more I/O. -/
def envTransient : Env Unit :=
  Env.const fun c => match c with
    | .SSL_read _ _ _ => ⟨-1, 0⟩
    | .SSL_write _ _ _ => ⟨-1, 0⟩
    | .SSL_connect _ => ⟨-1, 0⟩
    | .SSL_get_error _ _ => ⟨2, 0⟩
    | .gnutls_record_recv _ _ _ => ⟨-28, 0⟩
    | .gnutls_record_send _ _ _ => ⟨-52, 0⟩
    | .gnutls_handshake _ => ⟨-28, 0⟩
    | .gnutls_error_is_fatal _ => ⟨0, 0⟩
    | .malloc => ⟨4096, 0⟩
    | .TLSv1_2_client_method => ⟨16, 0⟩
    | .SSL_CTX_new _ => ⟨32, 0⟩
    | .SSL_new _ => ⟨48, 0⟩
    | .SSL_set_fd _ _ => ⟨1, 0⟩
    | .SSL_CTX_load_verify_locations _ _ => ⟨1, 0⟩
    | .gnutls_init => ⟨0, 48⟩
    | .gnutls_certificate_allocate_credentials => ⟨0, 32⟩
    | _ => ⟨0, 0⟩

/-- A GnuTLS engine whose peer has closed the channel cleanly:
`gnutls_record_recv` returns 0, its end-of-stream value. -/
def envCleanClose : Env Unit :=
  Env.const fun c => match c with
    | .gnutls_record_recv _ _ _ => ⟨0, 0⟩
    | .SSL_read _ _ _ => ⟨0, 0⟩
    | .SSL_get_error _ _ => ⟨6, 0⟩
    | _ => ⟨0, 0⟩

/-- An engine whose reads and writes fail fatally: `SSL_ERROR_SSL` in OpenSSL,
the codes -9 (unexpected packet length) and `GNUTLS_E_PUSH_ERROR` in GnuTLS. -/
def envFatal : Env Unit :=
  Env.const fun c => match c with
    | .SSL_read _ _ _ => ⟨-1, 0⟩
    | .SSL_write _ _ _ => ⟨-1, 0⟩
    | .SSL_get_error _ _ => ⟨1, 0⟩
    | .gnutls_record_recv _ _ _ => ⟨-9, 0⟩
    | .gnutls_record_send _ _ _ => ⟨-53, 0⟩
    | _ => ⟨0, 0⟩

/-- An environment in which engine creation and the handshake succeed and the
trust-anchor bundle cannot be loaded. -/
def envBadBundle : Env Unit :=
  Env.const fun c => match c with
    | .malloc => ⟨4096, 0⟩
    | .TLSv1_2_client_method => ⟨16, 0⟩
    | .SSL_CTX_new _ => ⟨32, 0⟩
    | .SSL_CTX_load_verify_locations _ _ => ⟨0, 0⟩
    | .SSL_new _ => ⟨48, 0⟩
    | .SSL_set_fd _ _ => ⟨1, 0⟩
    | .SSL_connect _ => ⟨1, 0⟩
    | .gnutls_certificate_allocate_credentials => ⟨0, 32⟩
    | .gnutls_certificate_set_x509_trust_file _ _ => ⟨-64, 0⟩
    | .gnutls_init => ⟨0, 48⟩
    | _ => ⟨0, 0⟩

/-- An environment in which everything up to the handshake succeeds and the
first handshake attempt fails fatally. -/
def envHandshakeFatal : Env Unit :=
  Env.const fun c => match c with
    | .malloc => ⟨4096, 0⟩
    | .TLSv1_2_client_method => ⟨16, 0⟩
    | .SSL_CTX_new _ => ⟨32, 0⟩
    | .SSL_CTX_load_verify_locations _ _ => ⟨1, 0⟩
    | .SSL_new _ => ⟨48, 0⟩
    | .SSL_set_fd _ _ => ⟨1, 0⟩
    | .SSL_connect _ => ⟨-1, 0⟩
    | .SSL_get_error _ _ => ⟨1, 0⟩
    | .gnutls_certificate_allocate_credentials => ⟨0, 32⟩
    | .gnutls_init => ⟨0, 48⟩
    | .gnutls_handshake _ => ⟨-12, 0⟩
    | .gnutls_error_is_fatal _ => ⟨1, 0⟩
    | _ => ⟨0, 0⟩

/-- An environment in which everything succeeds up to the binding of the
descriptor and the engine setup calls after it: `SSL_set_fd` returns 0 and
`gnutls_priority_set_direct` returns `GNUTLS_E_INVALID_REQUEST`. -/
def envBindFails : Env Unit :=
  Env.const fun c => match c with
    | .malloc => ⟨4096, 0⟩
    | .TLSv1_2_client_method => ⟨16, 0⟩
    | .SSL_CTX_new _ => ⟨32, 0⟩
    | .SSL_CTX_load_verify_locations _ _ => ⟨1, 0⟩
    | .SSL_new _ => ⟨48, 0⟩
    | .SSL_set_fd _ _ => ⟨0, 0⟩
    | .SSL_connect _ => ⟨1, 0⟩
    | .gnutls_certificate_allocate_credentials => ⟨0, 32⟩
    | .gnutls_init => ⟨0, 48⟩
    | .gnutls_priority_set_direct _ => ⟨-50, 0⟩
    | _ => ⟨0, 0⟩

/-- An environment in which every call answers 0. -/
def envZero : Env Unit := Env.const fun _ => ⟨0, 0⟩

/-! ## Theorems -/

section Basics

variable {σ : Type}

@[simp] theorem perform_trace (E : Env σ) (c : Call) (w : World σ) :
    (perform E c w).2.trace
      = w.trace ++ [⟨c, (perform E c w).1.ret, (perform E c w).1.out⟩] := rfl

theorem perform_reply (E : Env σ) (c : Call) (w : World σ) :
    (perform E c w).1 = (E.respond w.st c).1 := rfl

@[simp] theorem sleeps_nil : sleeps [] = [] := rfl

@[simp] theorem sleeps_append (t u : List Event) : sleeps (t ++ u) = sleeps t ++ sleeps u := by
  simp [sleeps]

@[simp] theorem sleeps_cons (e : Event) (t : List Event) :
    sleeps (e :: t) = (match e.call with
      | .usleep u => [u]
      | _ => []) ++ sleeps t := by
  rcases e with ⟨c, r, o⟩
  cases c <;> rfl

@[simp] theorem callCount_nil (p : Call → Bool) : callCount p [] = 0 := rfl

@[simp] theorem callCount_append (p : Call → Bool) (t u : List Event) :
    callCount p (t ++ u) = callCount p t + callCount p u := by
  simp [callCount]

@[simp] theorem callCount_cons (p : Call → Bool) (e : Event) (t : List Event) :
    callCount p (e :: t) = callCount p t + if p e.call then 1 else 0 := by
  simp [callCount, List.countP_cons]

end Basics

/-- With `SSL_read` always transient, the retry loop entered with counter `c`
makes `100 - c` further `SSL_read` calls and `99 - c` sleeps, then gives `-1`. -/
theorem openssl_sslread_repeat_transient {σ : Type} (E : Env σ) (h : OpenSSL.ReadTransient E)
    (x : OpenSSL.ctx) (buf : Ptr) (count : Nat) :
    ∀ (n c : Nat) (w : World σ), c + n = 99 →
      (OpenSSL.sslread_repeat E x buf count c w).1 = -1 ∧
      callCount isSSL_read (OpenSSL.sslread_repeat E x buf count c w).2.trace
        = callCount isSSL_read w.trace + (n + 1) ∧
      sleeps (OpenSSL.sslread_repeat E x buf count c w).2.trace
        = sleeps w.trace ++ List.replicate n 10000 := by
  intro n
  induction n with
  | zero =>
    intro c w hc
    have hr : (perform E (.SSL_read x.ssl buf (int32 count)) w).1.ret ≤ 0 := h.1 _ _ _ _
    have he : (perform E (.SSL_get_error x.ssl
        (perform E (.SSL_read x.ssl buf (int32 count)) w).1.ret)
        (perform E (.SSL_read x.ssl buf (int32 count)) w).2).1.ret = SSL_ERROR_WANT_READ ∨
      (perform E (.SSL_get_error x.ssl
        (perform E (.SSL_read x.ssl buf (int32 count)) w).1.ret)
        (perform E (.SSL_read x.ssl buf (int32 count)) w).2).1.ret = SSL_ERROR_WANT_WRITE :=
      h.2 _ _ _
    have hc2 : ¬ (c + 1 < 100) := by omega
    rw [OpenSSL.sslread_repeat]
    simp [not_lt.mpr hr, he, hc2, isSSL_read]
  | succ n ih =>
    intro c w hc
    have hr : (perform E (.SSL_read x.ssl buf (int32 count)) w).1.ret ≤ 0 := h.1 _ _ _ _
    have he : (perform E (.SSL_get_error x.ssl
        (perform E (.SSL_read x.ssl buf (int32 count)) w).1.ret)
        (perform E (.SSL_read x.ssl buf (int32 count)) w).2).1.ret = SSL_ERROR_WANT_READ ∨
      (perform E (.SSL_get_error x.ssl
        (perform E (.SSL_read x.ssl buf (int32 count)) w).1.ret)
        (perform E (.SSL_read x.ssl buf (int32 count)) w).2).1.ret = SSL_ERROR_WANT_WRITE :=
      h.2 _ _ _
    have hc2 : c + 1 < 100 := by omega
    rw [OpenSSL.sslread_repeat]
    simp only [not_lt.mpr hr, he, hc2, if_true, if_false]
    obtain ⟨h1, h2, h3⟩ := ih (c + 1) (perform E (.usleep 10000) (perform E (.SSL_get_error x.ssl
        (perform E (.SSL_read x.ssl buf (int32 count)) w).1.ret)
        (perform E (.SSL_read x.ssl buf (int32 count)) w).2).2).2 (by omega)
    refine ⟨h1, ?_, ?_⟩
    · rw [h2]
      simp [isSSL_read]
      omega
    · rw [h3]
      simp [List.replicate_succ]

/-- With `SSL_write` always transient, the retry loop entered with counter `c`
makes `100 - c` further `SSL_write` calls and `99 - c` sleeps, then gives `-1`. -/
theorem openssl_sslwrite_repeat_transient {σ : Type} (E : Env σ)
    (h : OpenSSL.WriteTransient E) (x : OpenSSL.ctx) (buf : Ptr) (count : Nat) :
    ∀ (n c : Nat) (w : World σ), c + n = 99 →
      (OpenSSL.sslwrite_repeat E x buf count c w).1 = -1 ∧
      callCount isSSL_write (OpenSSL.sslwrite_repeat E x buf count c w).2.trace
        = callCount isSSL_write w.trace + (n + 1) ∧
      sleeps (OpenSSL.sslwrite_repeat E x buf count c w).2.trace
        = sleeps w.trace ++ List.replicate n 10000 := by
  intro n
  induction n with
  | zero =>
    intro c w hc
    have hr : (perform E (.SSL_write x.ssl buf (int32 count)) w).1.ret ≤ 0 := h.1 _ _ _ _
    have he : (perform E (.SSL_get_error x.ssl
        (perform E (.SSL_write x.ssl buf (int32 count)) w).1.ret)
        (perform E (.SSL_write x.ssl buf (int32 count)) w).2).1.ret = SSL_ERROR_WANT_READ ∨
      (perform E (.SSL_get_error x.ssl
        (perform E (.SSL_write x.ssl buf (int32 count)) w).1.ret)
        (perform E (.SSL_write x.ssl buf (int32 count)) w).2).1.ret = SSL_ERROR_WANT_WRITE :=
      h.2 _ _ _
    have hc2 : ¬ (c + 1 < 100) := by omega
    rw [OpenSSL.sslwrite_repeat]
    simp [not_lt.mpr hr, he, hc2, isSSL_write]
  | succ n ih =>
    intro c w hc
    have hr : (perform E (.SSL_write x.ssl buf (int32 count)) w).1.ret ≤ 0 := h.1 _ _ _ _
    have he : (perform E (.SSL_get_error x.ssl
        (perform E (.SSL_write x.ssl buf (int32 count)) w).1.ret)
        (perform E (.SSL_write x.ssl buf (int32 count)) w).2).1.ret = SSL_ERROR_WANT_READ ∨
      (perform E (.SSL_get_error x.ssl
        (perform E (.SSL_write x.ssl buf (int32 count)) w).1.ret)
        (perform E (.SSL_write x.ssl buf (int32 count)) w).2).1.ret = SSL_ERROR_WANT_WRITE :=
      h.2 _ _ _
    have hc2 : c + 1 < 100 := by omega
    rw [OpenSSL.sslwrite_repeat]
    simp only [not_lt.mpr hr, he, hc2, if_true, if_false]
    obtain ⟨h1, h2, h3⟩ := ih (c + 1) (perform E (.usleep 10000) (perform E (.SSL_get_error x.ssl
        (perform E (.SSL_write x.ssl buf (int32 count)) w).1.ret)
        (perform E (.SSL_write x.ssl buf (int32 count)) w).2).2).2 (by omega)
    refine ⟨h1, ?_, ?_⟩
    · rw [h2]
      simp [isSSL_write]
      omega
    · rw [h3]
      simp [List.replicate_succ]

/-- With `gnutls_record_recv` always transient, the retry loop entered with
counter `c` returns `-1` after `100 - c` further receive calls and `99 - c`
sleeps, whatever the fuel. -/
theorem gnutls_sslread_repeat_transient {σ : Type} (E : Env σ) (h : GnuTLS.RecvTransient E)
    (fuel : Nat) (x : GnuTLS.ctx) (buf : Ptr) (count : Nat) :
    ∀ (n c : Nat) (w : World σ), c + n = 99 →
      ∃ w1, GnuTLS.sslread_repeat E fuel x buf count c w = .returned (-1) w1 ∧
        callCount isRecordRecv w1.trace = callCount isRecordRecv w.trace + (n + 1) ∧
        sleeps w1.trace = sleeps w.trace ++ List.replicate n 10000 := by
  intro n
  induction n with
  | zero =>
    intro c w hc
    have hr : (perform E (.gnutls_record_recv x.ssl buf count) w).1.ret = GNUTLS_E_AGAIN ∨
        (perform E (.gnutls_record_recv x.ssl buf count) w).1.ret = GNUTLS_E_INTERRUPTED :=
      h _ _ _ _
    have hc2 : ¬ (c + 1 < 100) := by omega
    rw [GnuTLS.sslread_repeat]
    rcases hr with hr | hr <;>
      simp [hr, hc2, isRecordRecv, GnuTLS.report, GNUTLS_E_AGAIN, GNUTLS_E_INTERRUPTED,
        GNUTLS_E_REHANDSHAKE]
  | succ n ih =>
    intro c w hc
    have hr : (perform E (.gnutls_record_recv x.ssl buf count) w).1.ret = GNUTLS_E_AGAIN ∨
        (perform E (.gnutls_record_recv x.ssl buf count) w).1.ret = GNUTLS_E_INTERRUPTED :=
      h _ _ _ _
    have hc2 : c + 1 < 100 := by omega
    obtain ⟨w1, h1, h2, h3⟩ := ih (c + 1) (perform E (.usleep 10000)
      (perform E (.gnutls_record_recv x.ssl buf count) w).2).2 (by omega)
    refine ⟨w1, ?_, ?_, ?_⟩
    · rw [GnuTLS.sslread_repeat]
      rcases hr with hr | hr <;>
        simp [hr, hc2, GNUTLS_E_AGAIN, GNUTLS_E_INTERRUPTED, GNUTLS_E_REHANDSHAKE] <;>
        simpa [hr, GNUTLS_E_AGAIN, GNUTLS_E_INTERRUPTED] using h1
    · rw [h2]
      simp [isRecordRecv]
      omega
    · rw [h3]
      simp [List.replicate_succ]

/-- With `gnutls_record_send` always transient, the retry loop entered with
counter `c` returns `-1` after `100 - c` further send calls and `99 - c` sleeps,
whatever the fuel. -/
theorem gnutls_sslwrite_repeat_transient {σ : Type} (E : Env σ) (h : GnuTLS.SendTransient E)
    (fuel : Nat) (x : GnuTLS.ctx) (buf : Ptr) (count : Nat) :
    ∀ (n c : Nat) (w : World σ), c + n = 99 →
      ∃ w1, GnuTLS.sslwrite_repeat E fuel x buf count c w = .returned (-1) w1 ∧
        callCount isRecordSend w1.trace = callCount isRecordSend w.trace + (n + 1) ∧
        sleeps w1.trace = sleeps w.trace ++ List.replicate n 10000 := by
  intro n
  induction n with
  | zero =>
    intro c w hc
    have hr : (perform E (.gnutls_record_send x.ssl buf count) w).1.ret = GNUTLS_E_AGAIN ∨
        (perform E (.gnutls_record_send x.ssl buf count) w).1.ret = GNUTLS_E_INTERRUPTED :=
      h _ _ _ _
    have hc2 : ¬ (c + 1 < 100) := by omega
    rw [GnuTLS.sslwrite_repeat]
    rcases hr with hr | hr <;>
      simp [hr, hc2, isRecordSend, GnuTLS.report, GNUTLS_E_AGAIN, GNUTLS_E_INTERRUPTED,
        GNUTLS_E_REHANDSHAKE]
  | succ n ih =>
    intro c w hc
    have hr : (perform E (.gnutls_record_send x.ssl buf count) w).1.ret = GNUTLS_E_AGAIN ∨
        (perform E (.gnutls_record_send x.ssl buf count) w).1.ret = GNUTLS_E_INTERRUPTED :=
      h _ _ _ _
    have hc2 : c + 1 < 100 := by omega
    obtain ⟨w1, h1, h2, h3⟩ := ih (c + 1) (perform E (.usleep 10000)
      (perform E (.gnutls_record_send x.ssl buf count) w).2).2 (by omega)
    refine ⟨w1, ?_, ?_, ?_⟩
    · rw [GnuTLS.sslwrite_repeat]
      rcases hr with hr | hr <;>
        simp [hr, hc2, GNUTLS_E_AGAIN, GNUTLS_E_INTERRUPTED, GNUTLS_E_REHANDSHAKE] <;>
        simpa [hr, GNUTLS_E_AGAIN, GNUTLS_E_INTERRUPTED] using h1
    · rw [h2]
      simp [isRecordSend]
      omega
    · rw [h3]
      simp [List.replicate_succ]

/-! ### C1: bounded retry of read and write -/

/-- C1: on a TLS-mode session and for a non-zero count, when every engine
receive call reports a transient condition `sslread` returns `-1` after exactly
100 receive calls and 99 sleeps of 10000 microseconds (990000 in total), in the
OpenSSL and in the GnuTLS build; likewise `sslwrite` with the engine send call. -/
theorem C1_bounded_retry {σ : Type} (E : Env σ) (s : σ) (fuel : Nat) (xo : OpenSSL.ctx)
    (xg : GnuTLS.ctx) (buf : Ptr) (count : Nat)
    (hxo : xo.ssl ≠ 0) (hxg : xg.ssl ≠ 0) (hcount : 0 < count) :
    (OpenSSL.ReadTransient E →
      BoundedFailure isSSL_read (OpenSSL.sslread E xo buf count (World.start s)).1
        (OpenSSL.sslread E xo buf count (World.start s)).2) ∧
    (OpenSSL.WriteTransient E →
      BoundedFailure isSSL_write (OpenSSL.sslwrite E xo buf count (World.start s)).1
        (OpenSSL.sslwrite E xo buf count (World.start s)).2) ∧
    (GnuTLS.RecvTransient E →
      ∃ r w, GnuTLS.sslread E fuel xg buf count (World.start s) = .returned r w ∧
        BoundedFailure isRecordRecv r w) ∧
    (GnuTLS.SendTransient E →
      ∃ r w, GnuTLS.sslwrite E fuel xg buf count (World.start s) = .returned r w ∧
        BoundedFailure isRecordSend r w) ∧
    (List.replicate 99 10000).sum = 990000 := by
  have hc : count ≠ 0 := by omega
  refine ⟨fun h => ?_, fun h => ?_, fun h => ?_, fun h => ?_, by decide⟩
  · have := openssl_sslread_repeat_transient E h xo buf count 99 0 (World.start s) (by omega)
    simpa [OpenSSL.sslread, hxo, hc, BoundedFailure, World.start] using this
  · have := openssl_sslwrite_repeat_transient E h xo buf count 99 0 (World.start s) (by omega)
    simpa [OpenSSL.sslwrite, hxo, hc, BoundedFailure, World.start] using this
  · obtain ⟨w1, h1, h2, h3⟩ :=
      gnutls_sslread_repeat_transient E h fuel xg buf count 99 0 (World.start s) (by omega)
    refine ⟨-1, w1, ?_, rfl, ?_, ?_⟩
    · simpa [GnuTLS.sslread, hxg, hc] using h1
    · simpa [World.start] using h2
    · simpa [World.start] using h3
  · obtain ⟨w1, h1, h2, h3⟩ :=
      gnutls_sslwrite_repeat_transient E h fuel xg buf count 99 0 (World.start s) (by omega)
    refine ⟨-1, w1, ?_, rfl, ?_, ?_⟩
    · simpa [GnuTLS.sslwrite, hxg, hc] using h1
    · simpa [World.start] using h2
    · simpa [World.start] using h3

/-- C1 at the always-transient engine, on sessions with engine handle 48 and a
count of 16. -/
theorem C1_bounded_retry_witness :
    OpenSSL.ReadTransient envTransient ∧ OpenSSL.WriteTransient envTransient ∧
    GnuTLS.RecvTransient envTransient ∧ GnuTLS.SendTransient envTransient ∧
    BoundedFailure isSSL_read
      (OpenSSL.sslread envTransient ⟨4096, 3, 48, 32⟩ 8192 16 (World.start ())).1
      (OpenSSL.sslread envTransient ⟨4096, 3, 48, 32⟩ 8192 16 (World.start ())).2 ∧
    BoundedFailure isSSL_write
      (OpenSSL.sslwrite envTransient ⟨4096, 3, 48, 32⟩ 8192 16 (World.start ())).1
      (OpenSSL.sslwrite envTransient ⟨4096, 3, 48, 32⟩ 8192 16 (World.start ())).2 ∧
    (∃ r w, GnuTLS.sslread envTransient 0 ⟨4096, 3, 48, 32⟩ 8192 16 (World.start ())
        = .returned r w ∧ BoundedFailure isRecordRecv r w) ∧
    (∃ r w, GnuTLS.sslwrite envTransient 0 ⟨4096, 3, 48, 32⟩ 8192 16 (World.start ())
        = .returned r w ∧ BoundedFailure isRecordSend r w) :=
  have hR : OpenSSL.ReadTransient envTransient :=
    ⟨fun _ _ _ _ => show (-1 : Int) ≤ 0 by decide, fun _ _ _ => Or.inl rfl⟩
  have hW : OpenSSL.WriteTransient envTransient :=
    ⟨fun _ _ _ _ => show (-1 : Int) ≤ 0 by decide, fun _ _ _ => Or.inl rfl⟩
  have hG : GnuTLS.RecvTransient envTransient := fun _ _ _ _ => Or.inl rfl
  have hS : GnuTLS.SendTransient envTransient := fun _ _ _ _ => Or.inr rfl
  have h := C1_bounded_retry envTransient () 0 ⟨4096, 3, 48, 32⟩ ⟨4096, 3, 48, 32⟩ 8192 16
    (by decide) (by decide) (by decide)
  ⟨hR, hW, hG, hS, h.1 hR, h.2.1 hW, h.2.2.1 hG, h.2.2.2.1 hS⟩

/-! ### C6: zero-length reads and writes -/

/-- C6: on a TLS-mode session, `sslread` and `sslwrite` with a count of 0 return
0 and leave the world as it was: no engine call, no raw read or write, no
sleep, in the OpenSSL and in the GnuTLS build. -/
theorem C6_zero_length {σ : Type} (E : Env σ) (w : World σ) (fuel : Nat) (xo : OpenSSL.ctx)
    (xg : GnuTLS.ctx) (buf : Ptr) (hxo : xo.ssl ≠ 0) (hxg : xg.ssl ≠ 0) :
    OpenSSL.sslread E xo buf 0 w = (0, w) ∧
    OpenSSL.sslwrite E xo buf 0 w = (0, w) ∧
    GnuTLS.sslread E fuel xg buf 0 w = .returned 0 w ∧
    GnuTLS.sslwrite E fuel xg buf 0 w = .returned 0 w := by
  simp [OpenSSL.sslread, OpenSSL.sslwrite, GnuTLS.sslread, GnuTLS.sslwrite, hxo, hxg]

/-- C6 at the always-transient engine, on sessions with engine handle 48. -/
theorem C6_zero_length_witness :
    OpenSSL.sslread envTransient ⟨4096, 3, 48, 32⟩ 8192 0 (World.start ())
      = (0, World.start ()) ∧
    OpenSSL.sslwrite envTransient ⟨4096, 3, 48, 32⟩ 8192 0 (World.start ())
      = (0, World.start ()) ∧
    GnuTLS.sslread envTransient 0 ⟨4096, 3, 48, 32⟩ 8192 0 (World.start ())
      = .returned 0 (World.start ()) ∧
    GnuTLS.sslwrite envTransient 0 ⟨4096, 3, 48, 32⟩ 8192 0 (World.start ())
      = .returned 0 (World.start ()) :=
  C6_zero_length envTransient (World.start ()) 0 ⟨4096, 3, 48, 32⟩ ⟨4096, 3, 48, 32⟩ 8192
    (by decide) (by decide)

/-! ### C5: plaintext mode -/

/-- C5: `sslinit` without cacert and with `untrusted = 0` performs `newctx` and
nothing else, so it makes libc calls only and, when `malloc` succeeds, returns a
session that stores `fd` with no engine handle, its trace being the one `malloc`
call; on a session without engine handle `sslread` and `sslwrite` are exactly
one raw `read` or `write` on the session's descriptor with the same buffer and
count, whose result is returned unchanged, and `sslready` is 0 without any call.
This holds in the OpenSSL build, the GnuTLS build and the build without TLS. -/
theorem C5_plaintext {σ : Type} (E : Env σ) (s : σ) (w : World σ) (fuel : Nat) (xcred : Ptr)
    (fd : Int) (xo : OpenSSL.ctx) (xg : GnuTLS.ctx) (xn : NoTLS.ctx) (buf : Ptr) (count : Nat)
    (hxo : xo.ssl = 0) (hxg : xg.ssl = 0) :
    ((∀ e ∈ (OpenSSL.sslinit E fd 0 0 (World.start s)).2.trace, isLibc e.call = true) ∧
      ((E.respond s .malloc).1.ret ≠ 0 →
        (OpenSSL.sslinit E fd 0 0 (World.start s)).1
          = some ⟨(E.respond s .malloc).1.ret, fd, 0, 0⟩ ∧
        calls (OpenSSL.sslinit E fd 0 0 (World.start s)).2.trace = [.malloc])) ∧
    (∃ r w1, GnuTLS.sslinit E fuel xcred fd 0 0 (World.start s) = .returned r w1 ∧
      (∀ e ∈ w1.trace, isLibc e.call = true) ∧
      ((E.respond s .malloc).1.ret ≠ 0 →
        r = some ⟨(E.respond s .malloc).1.ret, fd, 0, 0⟩ ∧ calls w1.trace = [.malloc])) ∧
    ((∀ e ∈ (NoTLS.sslinit E fd 0 0 (World.start s)).2.trace, isLibc e.call = true) ∧
      ((E.respond s .malloc).1.ret ≠ 0 →
        (NoTLS.sslinit E fd 0 0 (World.start s)).1
          = some ⟨(E.respond s .malloc).1.ret, fd⟩ ∧
        calls (NoTLS.sslinit E fd 0 0 (World.start s)).2.trace = [.malloc])) ∧
    (OpenSSL.sslread E xo buf count w
        = ((perform E (.read xo.fd buf count) w).1.ret, (perform E (.read xo.fd buf count) w).2) ∧
      OpenSSL.sslwrite E xo buf count w
        = ((perform E (.write xo.fd buf count) w).1.ret,
            (perform E (.write xo.fd buf count) w).2) ∧
      OpenSSL.sslready E xo w = (0, w)) ∧
    (GnuTLS.sslread E fuel xg buf count w
        = .returned (perform E (.read xg.fd buf count) w).1.ret
            (perform E (.read xg.fd buf count) w).2 ∧
      GnuTLS.sslwrite E fuel xg buf count w
        = .returned (perform E (.write xg.fd buf count) w).1.ret
            (perform E (.write xg.fd buf count) w).2 ∧
      GnuTLS.sslready E xg w = (0, w)) ∧
    (NoTLS.sslread E xn buf count w
        = ((perform E (.read xn.fd buf count) w).1.ret, (perform E (.read xn.fd buf count) w).2) ∧
      NoTLS.sslwrite E xn buf count w
        = ((perform E (.write xn.fd buf count) w).1.ret,
            (perform E (.write xn.fd buf count) w).2) ∧
      NoTLS.sslready E xn w = (0, w)) := by
  refine ⟨?_, ?_, ?_, ?_, ?_, ?_⟩
  · by_cases hm : (E.respond s .malloc).1.ret = 0 <;>
      simp [OpenSSL.sslinit, OpenSSL.newctx, perform, World.start, hm, isLibc, calls]
  · by_cases hm : (E.respond s .malloc).1.ret = 0 <;>
      simp only [GnuTLS.sslinit, GnuTLS.newctx, perform, World.start, hm, if_true, if_false,
        and_self, not_true_eq_false, not_false_eq_true, List.nil_append] <;>
      refine ⟨_, _, rfl, ?_⟩ <;>
      simp [isLibc, calls]
  · by_cases hm : (E.respond s .malloc).1.ret = 0 <;>
      simp [NoTLS.sslinit, NoTLS.newctx, perform, World.start, hm, isLibc, calls]
  · simp [OpenSSL.sslread, OpenSSL.sslwrite, OpenSSL.sslready, hxo]
  · simp [GnuTLS.sslread, GnuTLS.sslwrite, GnuTLS.sslready, hxg]
  · simp [NoTLS.sslread, NoTLS.sslwrite, NoTLS.sslready]

/-- C5 at the always-transient engine: descriptor 3, sessions without engine
handle, buffer 8192 and count 16. -/
theorem C5_plaintext_witness :
    ((envTransient.respond () .malloc).1.ret ≠ 0 →
      (OpenSSL.sslinit envTransient 3 0 0 (World.start ())).1 = some ⟨4096, 3, 0, 0⟩ ∧
      calls (OpenSSL.sslinit envTransient 3 0 0 (World.start ())).2.trace = [.malloc]) ∧
    (OpenSSL.sslread envTransient ⟨4096, 3, 0, 0⟩ 8192 16 (World.start ())
        = ((perform envTransient (.read 3 8192 16) (World.start ())).1.ret,
            (perform envTransient (.read 3 8192 16) (World.start ())).2) ∧
      OpenSSL.sslwrite envTransient ⟨4096, 3, 0, 0⟩ 8192 16 (World.start ())
        = ((perform envTransient (.write 3 8192 16) (World.start ())).1.ret,
            (perform envTransient (.write 3 8192 16) (World.start ())).2) ∧
      OpenSSL.sslready envTransient ⟨4096, 3, 0, 0⟩ (World.start ()) = (0, World.start ())) :=
  have h := C5_plaintext envTransient () (World.start ()) 0 0 3 ⟨4096, 3, 0, 0⟩
    ⟨4096, 3, 0, 0⟩ ⟨4096, 3⟩ 8192 16 rfl rfl
  ⟨h.1.2, h.2.2.2.1⟩

/-! ### C2: orderly shutdown -/

/-- In the OpenSSL build a clean close reported on the first `SSL_read`
(`SSL_ERROR_ZERO_RETURN`) makes `sslread` return 0. -/
theorem openssl_sslread_zero_return {σ : Type} (E : Env σ) (s : σ) (x : OpenSSL.ctx)
    (buf : Ptr) (count : Nat) (hx : x.ssl ≠ 0) (hcount : 0 < count)
    (hr : (E.respond s (.SSL_read x.ssl buf (int32 count))).1.ret ≤ 0)
    (he : (E.respond (E.respond s (.SSL_read x.ssl buf (int32 count))).2
      (.SSL_get_error x.ssl (E.respond s (.SSL_read x.ssl buf (int32 count))).1.ret)).1.ret
        = SSL_ERROR_ZERO_RETURN) :
    (OpenSSL.sslread E x buf count (World.start s)).1 = 0 := by
  have hc : count ≠ 0 := by omega
  rw [OpenSSL.sslread, if_neg hx, if_neg hc, OpenSSL.sslread_repeat]
  simp [perform, World.start, not_lt.mpr hr, he, SSL_ERROR_ZERO_RETURN, SSL_ERROR_WANT_READ,
    SSL_ERROR_WANT_WRITE, SSL_ERROR_WANT_X509_LOOKUP]

/-- In the GnuTLS build a `gnutls_record_recv` that returns 0 on the first
attempt makes `sslread` return `-1`, after the diagnostic of the `default`
case. -/
theorem gnutls_sslread_end_of_stream {σ : Type} (E : Env σ) (s : σ) (fuel : Nat)
    (x : GnuTLS.ctx) (buf : Ptr) (count : Nat) (hx : x.ssl ≠ 0) (hcount : 0 < count)
    (hr : (E.respond s (.gnutls_record_recv x.ssl buf count)).1.ret = 0) :
    ∃ w, GnuTLS.sslread E fuel x buf count (World.start s) = .returned (-1) w ∧
      calls w.trace = [.gnutls_record_recv x.ssl buf count, .gnutls_strerror 0, .fprintf] := by
  have hc : count ≠ 0 := by omega
  rw [GnuTLS.sslread, if_neg hx, if_neg hc, GnuTLS.sslread_repeat]
  simp [perform, World.start, hr, GnuTLS.report, calls, GNUTLS_E_REHANDSHAKE,
    GNUTLS_E_INTERRUPTED, GNUTLS_E_AGAIN, GNUTLS_E_PUSH_ERROR, GNUTLS_E_PULL_ERROR]

/-- C2, the GnuTLS build at a clean close: on a TLS-mode session (engine handle
48) and a count of 16, with `gnutls_record_recv` returning 0, `sslread` makes
the one receive call, prints the diagnostic of its `default` case and returns
`-1`, not 0. -/
theorem C2_gnutls_clean_close_returns_failure :
    ∃ w, GnuTLS.sslread envCleanClose 0 ⟨4096, 3, 48, 32⟩ 8192 16 (World.start ())
        = .returned (-1) w ∧
      calls w.trace = [.gnutls_record_recv 48 8192 16, .gnutls_strerror 0, .fprintf] := by
  rw [GnuTLS.sslread, if_neg (by decide), if_neg (by decide), GnuTLS.sslread_repeat]
  simp [perform, World.start, envCleanClose, Env.const, GnuTLS.report, calls,
    GNUTLS_E_REHANDSHAKE, GNUTLS_E_INTERRUPTED, GNUTLS_E_AGAIN, GNUTLS_E_PUSH_ERROR,
    GNUTLS_E_PULL_ERROR]

/-! ### C7: teardown -/

/-- The calls of `sslexit` in the OpenSSL build: on a TLS-mode session one
`SSL_shutdown`, then `SSL_free`, `SSL_CTX_free` and `free`; on a plaintext
session `free` alone. -/
theorem openssl_sslexit_calls {σ : Type} (E : Env σ) (s : σ) (x : OpenSSL.ctx) :
    calls (OpenSSL.sslexit E x (World.start s)).trace =
      if x.ssl ≠ 0 then
        [.SSL_shutdown x.ssl, .SSL_free x.ssl, .SSL_CTX_free x.ctx, .free x.self]
      else [.free x.self] := by
  by_cases hx : x.ssl = 0 <;> simp [OpenSSL.sslexit, hx, calls, World.start]

/-- The calls of `sslexit` in the GnuTLS build: on a TLS-mode session
`gnutls_deinit`, `gnutls_certificate_free_credentials`, `gnutls_global_deinit`
and `free`, and no `gnutls_bye`; on a plaintext session `free` alone. -/
theorem gnutls_sslexit_calls {σ : Type} (E : Env σ) (s : σ) (x : GnuTLS.ctx) :
    calls (GnuTLS.sslexit E x (World.start s)).trace =
      if x.ssl ≠ 0 then
        [.gnutls_deinit x.ssl, .gnutls_certificate_free_credentials x.cred,
          .gnutls_global_deinit, .free x.self]
      else [.free x.self] := by
  by_cases hx : x.ssl = 0 <;> simp [GnuTLS.sslexit, hx, calls, World.start]

/-- The calls of `sslexit` in the build without TLS: `free` alone. -/
theorem notls_sslexit_calls {σ : Type} (E : Env σ) (s : σ) (x : NoTLS.ctx) :
    calls (NoTLS.sslexit E x (World.start s)).trace = [.free x.self] := by
  simp [NoTLS.sslexit, calls, World.start]

/-- C7, the GnuTLS build on an established session (engine handle 48,
credentials 32): `sslexit` calls `gnutls_deinit`,
`gnutls_certificate_free_credentials`, `gnutls_global_deinit` and `free`; it
sends no close notification, `gnutls_bye` is not among its calls. -/
theorem C7_gnutls_sslexit_sends_no_bye :
    calls (GnuTLS.sslexit envZero ⟨4096, 3, 48, 32⟩ (World.start ())).trace
      = [.gnutls_deinit 48, .gnutls_certificate_free_credentials 32,
          .gnutls_global_deinit, .free 4096] ∧
    callCount isBye (GnuTLS.sslexit envZero ⟨4096, 3, 48, 32⟩ (World.start ())).trace = 0 := by
  decide

/-! ### Results of the retry loops, whatever the engine answers -/

/-- The result of the OpenSSL read loop is a positive count, the value of the
last `SSL_read`; or 0, the last `SSL_get_error` having given
`SSL_ERROR_ZERO_RETURN`; or `-1`. -/
theorem openssl_sslread_repeat_result {σ : Type} (E : Env σ) (x : OpenSSL.ctx) (buf : Ptr)
    (count : Nat) :
    ∀ (n c : Nat) (w : World σ), c + n = 99 →
      (0 < (OpenSSL.sslread_repeat E x buf count c w).1 ∧
        lastRet isSSL_read (OpenSSL.sslread_repeat E x buf count c w).2.trace
          = some (OpenSSL.sslread_repeat E x buf count c w).1) ∨
      ((OpenSSL.sslread_repeat E x buf count c w).1 = 0 ∧
        lastRet isSSL_get_error (OpenSSL.sslread_repeat E x buf count c w).2.trace
          = some SSL_ERROR_ZERO_RETURN) ∨
      (OpenSSL.sslread_repeat E x buf count c w).1 = -1 := by
  intro n
  induction n with
  | zero =>
    intro c w hc
    rw [OpenSSL.sslread_repeat]
    simp only []
    split_ifs with h1 h2 h3 h4 h5 h6
    · left
      simp [h1, lastRet, isSSL_read]
    · omega
    · simp
    · simp
    · right; left
      simp [lastRet, isSSL_get_error, h5]
    · simp
    · simp
  | succ n ih =>
    intro c w hc
    rw [OpenSSL.sslread_repeat]
    simp only []
    split_ifs with h1 h2 h3 h4 h5 h6
    · left
      simp [h1, lastRet, isSSL_read]
    · exact ih (c + 1) _ (by omega)
    · simp
    · simp
    · right; left
      simp [lastRet, isSSL_get_error, h5]
    · simp
    · simp

/-- The result of the OpenSSL write loop is a positive count, the value of the
last `SSL_write`; or 0, the last `SSL_get_error` having given
`SSL_ERROR_ZERO_RETURN`; or `-1`. -/
theorem openssl_sslwrite_repeat_result {σ : Type} (E : Env σ) (x : OpenSSL.ctx) (buf : Ptr)
    (count : Nat) :
    ∀ (n c : Nat) (w : World σ), c + n = 99 →
      (0 < (OpenSSL.sslwrite_repeat E x buf count c w).1 ∧
        lastRet isSSL_write (OpenSSL.sslwrite_repeat E x buf count c w).2.trace
          = some (OpenSSL.sslwrite_repeat E x buf count c w).1) ∨
      ((OpenSSL.sslwrite_repeat E x buf count c w).1 = 0 ∧
        lastRet isSSL_get_error (OpenSSL.sslwrite_repeat E x buf count c w).2.trace
          = some SSL_ERROR_ZERO_RETURN) ∨
      (OpenSSL.sslwrite_repeat E x buf count c w).1 = -1 := by
  intro n
  induction n with
  | zero =>
    intro c w hc
    rw [OpenSSL.sslwrite_repeat]
    simp only []
    split_ifs with h1 h2 h3 h4 h5 h6
    · left
      simp [h1, lastRet, isSSL_write]
    · omega
    · simp
    · simp
    · right; left
      simp [lastRet, isSSL_get_error, h5]
    · simp
    · simp
  | succ n ih =>
    intro c w hc
    rw [OpenSSL.sslwrite_repeat]
    simp only []
    split_ifs with h1 h2 h3 h4 h5 h6
    · left
      simp [h1, lastRet, isSSL_write]
    · exact ih (c + 1) _ (by omega)
    · simp
    · simp
    · right; left
      simp [lastRet, isSSL_get_error, h5]
    · simp
    · simp

/-- Whenever the GnuTLS read loop returns, its result is a positive count, the
value of the last `gnutls_record_recv`, or `-1`. -/
theorem gnutls_sslread_repeat_result {σ : Type} (E : Env σ) (fuel : Nat) (x : GnuTLS.ctx)
    (buf : Ptr) (count : Nat) :
    ∀ (n c : Nat) (w : World σ), c + n = 99 → ∀ (r : Int) (w1 : World σ),
      GnuTLS.sslread_repeat E fuel x buf count c w = .returned r w1 →
      (0 < r ∧ lastRet isRecordRecv w1.trace = some r) ∨ r = -1 := by
  intro n
  induction n with
  | zero =>
    intro c w hc r w1 h
    rw [GnuTLS.sslread_repeat] at h
    repeat' split at h
    all_goals first
      | omega
      | (cases h <;> first
          | (right; rfl)
          | (left; simp [*, lastRet, isRecordRecv]))
  | succ n ih =>
    intro c w hc r w1 h
    rw [GnuTLS.sslread_repeat] at h
    repeat' split at h
    all_goals first
      | exact ih (c + 1) _ (by omega) r w1 h
      | (cases h <;> first
          | (right; rfl)
          | (left; simp [*, lastRet, isRecordRecv]))

/-- When every rehandshake loop ends within the fuel, the GnuTLS read loop
returns. -/
theorem gnutls_sslread_repeat_returns {σ : Type} (E : Env σ) (fuel : Nat) (x : GnuTLS.ctx)
    (buf : Ptr) (count : Nat)
    (hterm : ∀ w, ∃ r w1, GnuTLS.handshake_loop E x.ssl fuel w = .returned r w1) :
    ∀ (n c : Nat) (w : World σ), c + n = 99 →
      ∃ r w1, GnuTLS.sslread_repeat E fuel x buf count c w = .returned r w1 := by
  intro n
  induction n with
  | zero =>
    intro c w hc
    rw [GnuTLS.sslread_repeat]
    have hc2 : ¬ (c + 1 < 100) := by omega
    split_ifs with h1 h2 h3 h4
    · exact ⟨_, _, rfl⟩
    · obtain ⟨r, w1, hl⟩ := hterm (perform E (.gnutls_record_recv x.ssl buf count) w).2
      rw [hl]
      simp only []
      split_ifs <;> exact ⟨_, _, rfl⟩
    all_goals exact ⟨_, _, rfl⟩
  | succ n ih =>
    intro c w hc
    rw [GnuTLS.sslread_repeat]
    have hc2 : c + 1 < 100 := by omega
    split_ifs with h1 h2 h3 h4
    · exact ⟨_, _, rfl⟩
    · obtain ⟨r, w1, hl⟩ := hterm (perform E (.gnutls_record_recv x.ssl buf count) w).2
      rw [hl]
      simp only []
      split_ifs
      · exact ⟨_, _, rfl⟩
      · exact ih (c + 1) _ (by omega)
    · exact ih (c + 1) _ (by omega)
    all_goals exact ⟨_, _, rfl⟩

/-- Whenever the GnuTLS write loop returns, its result is a positive count, the
value of the last `gnutls_record_send`, or `-1`. -/
theorem gnutls_sslwrite_repeat_result {σ : Type} (E : Env σ) (fuel : Nat) (x : GnuTLS.ctx)
    (buf : Ptr) (count : Nat) :
    ∀ (n c : Nat) (w : World σ), c + n = 99 → ∀ (r : Int) (w1 : World σ),
      GnuTLS.sslwrite_repeat E fuel x buf count c w = .returned r w1 →
      (0 < r ∧ lastRet isRecordSend w1.trace = some r) ∨ r = -1 := by
  intro n
  induction n with
  | zero =>
    intro c w hc r w1 h
    rw [GnuTLS.sslwrite_repeat] at h
    repeat' split at h
    all_goals first
      | omega
      | (cases h <;> first
          | (right; rfl)
          | (left; simp [*, lastRet, isRecordSend]))
  | succ n ih =>
    intro c w hc r w1 h
    rw [GnuTLS.sslwrite_repeat] at h
    repeat' split at h
    all_goals first
      | exact ih (c + 1) _ (by omega) r w1 h
      | (cases h <;> first
          | (right; rfl)
          | (left; simp [*, lastRet, isRecordSend]))

/-- When every rehandshake loop ends within the fuel, the GnuTLS write loop
returns. -/
theorem gnutls_sslwrite_repeat_returns {σ : Type} (E : Env σ) (fuel : Nat) (x : GnuTLS.ctx)
    (buf : Ptr) (count : Nat)
    (hterm : ∀ w, ∃ r w1, GnuTLS.handshake_loop E x.ssl fuel w = .returned r w1) :
    ∀ (n c : Nat) (w : World σ), c + n = 99 →
      ∃ r w1, GnuTLS.sslwrite_repeat E fuel x buf count c w = .returned r w1 := by
  intro n
  induction n with
  | zero =>
    intro c w hc
    rw [GnuTLS.sslwrite_repeat]
    have hc2 : ¬ (c + 1 < 100) := by omega
    split_ifs with h1 h2 h3 h4
    · exact ⟨_, _, rfl⟩
    · obtain ⟨r, w1, hl⟩ := hterm (perform E (.gnutls_record_send x.ssl buf count) w).2
      rw [hl]
      simp only []
      split_ifs <;> exact ⟨_, _, rfl⟩
    all_goals exact ⟨_, _, rfl⟩
  | succ n ih =>
    intro c w hc
    rw [GnuTLS.sslwrite_repeat]
    have hc2 : c + 1 < 100 := by omega
    split_ifs with h1 h2 h3 h4
    · exact ⟨_, _, rfl⟩
    · obtain ⟨r, w1, hl⟩ := hterm (perform E (.gnutls_record_send x.ssl buf count) w).2
      rw [hl]
      simp only []
      split_ifs
      · exact ⟨_, _, rfl⟩
      · exact ih (c + 1) _ (by omega)
    · exact ih (c + 1) _ (by omega)
    all_goals exact ⟨_, _, rfl⟩

/-! ### C9: what `sslwrite` returns -/

/-- C9 as stated fails in the OpenSSL build: on a TLS-mode session (engine
handle 48) and a length of 16, with `SSL_write` returning 0 and `SSL_get_error`
giving `SSL_ERROR_ZERO_RETURN`, `sslwrite` returns 0. -/
theorem C9_openssl_sslwrite_returns_zero :
    (0 : Nat) < 16 ∧
    (OpenSSL.sslwrite envCleanClose ⟨4096, 3, 48, 32⟩ 8192 16 (World.start ())).1 = 0 := by
  refine ⟨by decide, ?_⟩
  rw [OpenSSL.sslwrite, if_neg (by decide), if_neg (by decide), OpenSSL.sslwrite_repeat]
  simp [perform, World.start, envCleanClose, Env.const, SSL_ERROR_ZERO_RETURN,
    SSL_ERROR_WANT_READ, SSL_ERROR_WANT_WRITE, SSL_ERROR_WANT_X509_LOOKUP]

/-- C9, amended: on a TLS-mode session and for a length above 0, `sslwrite` of
the GnuTLS build never returns 0: whenever it returns, the result is a positive
count or `-1`, and it does return when every rehandshake loop ends within the
fuel; `sslwrite` of the OpenSSL build returns a positive count, `-1` or 0, and
0 only when the last `SSL_get_error` gave `SSL_ERROR_ZERO_RETURN`. -/
theorem C9_sslwrite_zero_only_on_zero_return {σ : Type} (E : Env σ) (s : σ) (fuel : Nat)
    (xo : OpenSSL.ctx) (xg : GnuTLS.ctx) (buf : Ptr) (count : Nat)
    (hxo : xo.ssl ≠ 0) (hxg : xg.ssl ≠ 0) (hcount : 0 < count) :
    ((0 < (OpenSSL.sslwrite E xo buf count (World.start s)).1 ∨
        (OpenSSL.sslwrite E xo buf count (World.start s)).1 = -1 ∨
        (OpenSSL.sslwrite E xo buf count (World.start s)).1 = 0) ∧
      ((OpenSSL.sslwrite E xo buf count (World.start s)).1 = 0 →
        lastRet isSSL_get_error (OpenSSL.sslwrite E xo buf count (World.start s)).2.trace
          = some SSL_ERROR_ZERO_RETURN)) ∧
    (∀ r w, GnuTLS.sslwrite E fuel xg buf count (World.start s) = .returned r w →
      (0 < r ∨ r = -1) ∧ r ≠ 0) ∧
    ((∀ w, ∃ r w1, GnuTLS.handshake_loop E xg.ssl fuel w = .returned r w1) →
      ∃ r w, GnuTLS.sslwrite E fuel xg buf count (World.start s) = .returned r w) := by
  have hc : count ≠ 0 := by omega
  refine ⟨?_, ?_, ?_⟩
  · have h := openssl_sslwrite_repeat_result E xo buf count 99 0 (World.start s) (by omega)
    rw [OpenSSL.sslwrite, if_neg hxo, if_neg hc]
    rcases h with ⟨h1, -⟩ | ⟨h1, h2⟩ | h1
    · exact ⟨Or.inl h1, fun h0 => by omega⟩
    · exact ⟨Or.inr (Or.inr h1), fun _ => h2⟩
    · exact ⟨Or.inr (Or.inl h1), fun h0 => by omega⟩
  · intro r w h
    rw [GnuTLS.sslwrite, if_neg hxg, if_neg hc] at h
    rcases gnutls_sslwrite_repeat_result E fuel xg buf count 99 0 (World.start s) (by omega)
      r w h with ⟨h1, -⟩ | h1
    · exact ⟨Or.inl h1, by omega⟩
    · exact ⟨Or.inr h1, by omega⟩
  · intro hterm
    rw [GnuTLS.sslwrite, if_neg hxg, if_neg hc]
    exact gnutls_sslwrite_repeat_returns E fuel xg buf count hterm 99 0 (World.start s)
      (by omega)

/-- C9 amended, at the clean-close engine with one attempt allowed to each
rehandshake loop, on sessions with engine handle 48 and a length of 16. -/
theorem C9_sslwrite_zero_only_on_zero_return_witness :
    ((OpenSSL.sslwrite envCleanClose ⟨4096, 3, 48, 32⟩ 8192 16 (World.start ())).1 = 0 →
      lastRet isSSL_get_error
        (OpenSSL.sslwrite envCleanClose ⟨4096, 3, 48, 32⟩ 8192 16 (World.start ())).2.trace
        = some SSL_ERROR_ZERO_RETURN) ∧
    (∀ r w, GnuTLS.sslwrite envCleanClose 1 ⟨4096, 3, 48, 32⟩ 8192 16 (World.start ())
        = .returned r w → (0 < r ∨ r = -1) ∧ r ≠ 0) ∧
    (∃ r w, GnuTLS.sslwrite envCleanClose 1 ⟨4096, 3, 48, 32⟩ 8192 16 (World.start ())
        = .returned r w) :=
  have h := C9_sslwrite_zero_only_on_zero_return envCleanClose () 1 ⟨4096, 3, 48, 32⟩
    ⟨4096, 3, 48, 32⟩ 8192 16 (by decide) (by decide) (by decide)
  ⟨h.1.2, h.2.1, h.2.2 (fun w => ⟨0, _, rfl⟩)⟩

/-! ### C10: no engine code leaks through read and write -/

/-- A fatal error at the first `SSL_read` makes the OpenSSL `sslread` fail at
once. -/
theorem openssl_sslread_fatal_first {σ : Type} (E : Env σ) (s : σ) (x : OpenSSL.ctx)
    (buf : Ptr) (count : Nat) (hx : x.ssl ≠ 0) (hcount : 0 < count)
    (hf : OpenSSL.FatalFirst E s x.ssl (.SSL_read x.ssl buf (int32 count))) :
    FailsAtOnce isSSL_read (OpenSSL.sslread E x buf count (World.start s)).1
      (OpenSSL.sslread E x buf count (World.start s)).2.trace := by
  have hc : count ≠ 0 := by omega
  obtain ⟨h1, h2, h3, h4⟩ := hf
  rw [OpenSSL.sslread, if_neg hx, if_neg hc, OpenSSL.sslread_repeat]
  simp only [perform, World.start, not_lt.mpr h1, h2, h3, h4, if_false, or_self]
  split_ifs <;> simp [FailsAtOnce, isSSL_read]

/-- A fatal error at the first `SSL_write` makes the OpenSSL `sslwrite` fail at
once. -/
theorem openssl_sslwrite_fatal_first {σ : Type} (E : Env σ) (s : σ) (x : OpenSSL.ctx)
    (buf : Ptr) (count : Nat) (hx : x.ssl ≠ 0) (hcount : 0 < count)
    (hf : OpenSSL.FatalFirst E s x.ssl (.SSL_write x.ssl buf (int32 count))) :
    FailsAtOnce isSSL_write (OpenSSL.sslwrite E x buf count (World.start s)).1
      (OpenSSL.sslwrite E x buf count (World.start s)).2.trace := by
  have hc : count ≠ 0 := by omega
  obtain ⟨h1, h2, h3, h4⟩ := hf
  rw [OpenSSL.sslwrite, if_neg hx, if_neg hc, OpenSSL.sslwrite_repeat]
  simp only [perform, World.start, not_lt.mpr h1, h2, h3, h4, if_false, or_self]
  split_ifs <;> simp [FailsAtOnce, isSSL_write]

/-- A fatal error at the first `gnutls_record_recv` makes the GnuTLS `sslread`
fail at once, whatever the fuel. -/
theorem gnutls_sslread_fatal_first {σ : Type} (E : Env σ) (s : σ) (fuel : Nat)
    (x : GnuTLS.ctx) (buf : Ptr) (count : Nat) (hx : x.ssl ≠ 0) (hcount : 0 < count)
    (hf : GnuTLS.FatalFirst E s (.gnutls_record_recv x.ssl buf count)) :
    ∃ r w, GnuTLS.sslread E fuel x buf count (World.start s) = .returned r w ∧
      FailsAtOnce isRecordRecv r w.trace := by
  have hc : count ≠ 0 := by omega
  obtain ⟨h1, h2, h3, h4⟩ := hf
  rw [GnuTLS.sslread, if_neg hx, if_neg hc, GnuTLS.sslread_repeat]
  simp only [perform, World.start, not_lt.mpr (le_of_lt h1), h2, h3, h4, if_false, or_self]
  split_ifs <;> exact ⟨_, _, rfl, by simp [FailsAtOnce, isRecordRecv, GnuTLS.report]⟩

/-- A fatal error at the first `gnutls_record_send` makes the GnuTLS `sslwrite`
fail at once, whatever the fuel. -/
theorem gnutls_sslwrite_fatal_first {σ : Type} (E : Env σ) (s : σ) (fuel : Nat)
    (x : GnuTLS.ctx) (buf : Ptr) (count : Nat) (hx : x.ssl ≠ 0) (hcount : 0 < count)
    (hf : GnuTLS.FatalFirst E s (.gnutls_record_send x.ssl buf count)) :
    ∃ r w, GnuTLS.sslwrite E fuel x buf count (World.start s) = .returned r w ∧
      FailsAtOnce isRecordSend r w.trace := by
  have hc : count ≠ 0 := by omega
  obtain ⟨h1, h2, h3, h4⟩ := hf
  rw [GnuTLS.sslwrite, if_neg hx, if_neg hc, GnuTLS.sslwrite_repeat]
  simp only [perform, World.start, not_lt.mpr (le_of_lt h1), h2, h3, h4, if_false, or_self]
  split_ifs <;> exact ⟨_, _, rfl, by simp [FailsAtOnce, isRecordSend, GnuTLS.report]⟩

/-- C10: on a TLS-mode session and for a non-zero count, whatever the engine
answers, the result of `sslread` and of `sslwrite` is a positive count equal to
the value of the last engine receive or send call, or 0, or `-1`, in the
OpenSSL build and, whenever the call returns, in the GnuTLS build, where it
returns when every rehandshake loop ends within the fuel; and a fatal engine
error at the first attempt gives `-1` after exactly one engine receive or send
call and no sleep. -/
theorem C10_no_engine_code_leaks {σ : Type} (E : Env σ) (s : σ) (fuel : Nat)
    (xo : OpenSSL.ctx) (xg : GnuTLS.ctx) (buf : Ptr) (count : Nat)
    (hxo : xo.ssl ≠ 0) (hxg : xg.ssl ≠ 0) (hcount : 0 < count) :
    (ResultOK isSSL_read (OpenSSL.sslread E xo buf count (World.start s)).1
        (OpenSSL.sslread E xo buf count (World.start s)).2.trace ∧
      (OpenSSL.FatalFirst E s xo.ssl (.SSL_read xo.ssl buf (int32 count)) →
        FailsAtOnce isSSL_read (OpenSSL.sslread E xo buf count (World.start s)).1
          (OpenSSL.sslread E xo buf count (World.start s)).2.trace)) ∧
    (ResultOK isSSL_write (OpenSSL.sslwrite E xo buf count (World.start s)).1
        (OpenSSL.sslwrite E xo buf count (World.start s)).2.trace ∧
      (OpenSSL.FatalFirst E s xo.ssl (.SSL_write xo.ssl buf (int32 count)) →
        FailsAtOnce isSSL_write (OpenSSL.sslwrite E xo buf count (World.start s)).1
          (OpenSSL.sslwrite E xo buf count (World.start s)).2.trace)) ∧
    ((∀ r w, GnuTLS.sslread E fuel xg buf count (World.start s) = .returned r w →
        ResultOK isRecordRecv r w.trace) ∧
      ((∀ w, ∃ r w1, GnuTLS.handshake_loop E xg.ssl fuel w = .returned r w1) →
        ∃ r w, GnuTLS.sslread E fuel xg buf count (World.start s) = .returned r w) ∧
      (GnuTLS.FatalFirst E s (.gnutls_record_recv xg.ssl buf count) →
        ∃ r w, GnuTLS.sslread E fuel xg buf count (World.start s) = .returned r w ∧
          FailsAtOnce isRecordRecv r w.trace)) ∧
    ((∀ r w, GnuTLS.sslwrite E fuel xg buf count (World.start s) = .returned r w →
        ResultOK isRecordSend r w.trace) ∧
      ((∀ w, ∃ r w1, GnuTLS.handshake_loop E xg.ssl fuel w = .returned r w1) →
        ∃ r w, GnuTLS.sslwrite E fuel xg buf count (World.start s) = .returned r w) ∧
      (GnuTLS.FatalFirst E s (.gnutls_record_send xg.ssl buf count) →
        ∃ r w, GnuTLS.sslwrite E fuel xg buf count (World.start s) = .returned r w ∧
          FailsAtOnce isRecordSend r w.trace)) := by
  have hc : count ≠ 0 := by omega
  refine ⟨⟨?_, openssl_sslread_fatal_first E s xo buf count hxo hcount⟩,
    ⟨?_, openssl_sslwrite_fatal_first E s xo buf count hxo hcount⟩,
    ⟨?_, ?_, gnutls_sslread_fatal_first E s fuel xg buf count hxg hcount⟩,
    ⟨?_, ?_, gnutls_sslwrite_fatal_first E s fuel xg buf count hxg hcount⟩⟩
  · have h := openssl_sslread_repeat_result E xo buf count 99 0 (World.start s) (by omega)
    rw [OpenSSL.sslread, if_neg hxo, if_neg hc]
    rcases h with h1 | ⟨h1, -⟩ | h1
    · exact Or.inl h1
    · exact Or.inr (Or.inl h1)
    · exact Or.inr (Or.inr h1)
  · have h := openssl_sslwrite_repeat_result E xo buf count 99 0 (World.start s) (by omega)
    rw [OpenSSL.sslwrite, if_neg hxo, if_neg hc]
    rcases h with h1 | ⟨h1, -⟩ | h1
    · exact Or.inl h1
    · exact Or.inr (Or.inl h1)
    · exact Or.inr (Or.inr h1)
  · intro r w h
    rw [GnuTLS.sslread, if_neg hxg, if_neg hc] at h
    rcases gnutls_sslread_repeat_result E fuel xg buf count 99 0 (World.start s) (by omega)
      r w h with h1 | h1
    · exact Or.inl h1
    · exact Or.inr (Or.inr h1)
  · intro hterm
    rw [GnuTLS.sslread, if_neg hxg, if_neg hc]
    exact gnutls_sslread_repeat_returns E fuel xg buf count hterm 99 0 (World.start s)
      (by omega)
  · intro r w h
    rw [GnuTLS.sslwrite, if_neg hxg, if_neg hc] at h
    rcases gnutls_sslwrite_repeat_result E fuel xg buf count 99 0 (World.start s) (by omega)
      r w h with h1 | h1
    · exact Or.inl h1
    · exact Or.inr (Or.inr h1)
  · intro hterm
    rw [GnuTLS.sslwrite, if_neg hxg, if_neg hc]
    exact gnutls_sslwrite_repeat_returns E fuel xg buf count hterm 99 0 (World.start s)
      (by omega)

/-- C10 at the engine whose reads and writes fail fatally, with one attempt
allowed to each rehandshake loop, on sessions with engine handle 48 and a count
of 16. -/
theorem C10_no_engine_code_leaks_witness :
    OpenSSL.FatalFirst envFatal () 48 (.SSL_read 48 8192 (int32 16)) ∧
    OpenSSL.FatalFirst envFatal () 48 (.SSL_write 48 8192 (int32 16)) ∧
    GnuTLS.FatalFirst envFatal () (.gnutls_record_recv 48 8192 16) ∧
    GnuTLS.FatalFirst envFatal () (.gnutls_record_send 48 8192 16) ∧
    FailsAtOnce isSSL_read
      (OpenSSL.sslread envFatal ⟨4096, 3, 48, 32⟩ 8192 16 (World.start ())).1
      (OpenSSL.sslread envFatal ⟨4096, 3, 48, 32⟩ 8192 16 (World.start ())).2.trace ∧
    FailsAtOnce isSSL_write
      (OpenSSL.sslwrite envFatal ⟨4096, 3, 48, 32⟩ 8192 16 (World.start ())).1
      (OpenSSL.sslwrite envFatal ⟨4096, 3, 48, 32⟩ 8192 16 (World.start ())).2.trace ∧
    (∃ r w, GnuTLS.sslread envFatal 1 ⟨4096, 3, 48, 32⟩ 8192 16 (World.start ())
        = .returned r w ∧ FailsAtOnce isRecordRecv r w.trace) ∧
    (∃ r w, GnuTLS.sslwrite envFatal 1 ⟨4096, 3, 48, 32⟩ 8192 16 (World.start ())
        = .returned r w ∧ FailsAtOnce isRecordSend r w.trace) ∧
    (∃ r w, GnuTLS.sslread envFatal 1 ⟨4096, 3, 48, 32⟩ 8192 16 (World.start ())
        = .returned r w) :=
  have hR : OpenSSL.FatalFirst envFatal () 48 (.SSL_read 48 8192 (int32 16)) := by decide
  have hW : OpenSSL.FatalFirst envFatal () 48 (.SSL_write 48 8192 (int32 16)) := by decide
  have hG : GnuTLS.FatalFirst envFatal () (.gnutls_record_recv 48 8192 16) := by decide
  have hS : GnuTLS.FatalFirst envFatal () (.gnutls_record_send 48 8192 16) := by decide
  have h := C10_no_engine_code_leaks envFatal () 1 ⟨4096, 3, 48, 32⟩ ⟨4096, 3, 48, 32⟩
    8192 16 (by decide) (by decide) (by decide)
  ⟨hR, hW, hG, hS, h.1.2 hR, h.2.1.2 hW, h.2.2.1.2.2 hG, h.2.2.2.2.2 hS,
    h.2.2.1.2.1 (fun w => ⟨0, _, rfl⟩)⟩

/-! ### The handshake step of `sslinit` -/

section TraceLemmas

@[simp] theorem acquired_nil : acquired [] = [] := rfl

@[simp] theorem acquired_append (t u : List Event) :
    acquired (t ++ u) = acquired t ++ acquired u := by
  simp [acquired]

@[simp] theorem released_nil : released [] = [] := rfl

@[simp] theorem released_append (t u : List Event) :
    released (t ++ u) = released t ++ released u := by
  simp [released]

@[simp] theorem verifyModes_nil : verifyModes [] = [] := rfl

@[simp] theorem verifyModes_append (t u : List Event) :
    verifyModes (t ++ u) = verifyModes t ++ verifyModes u := by
  simp [verifyModes]

end TraceLemmas

/-- With every handshake attempt transient, the handshake step of the OpenSSL
`sslinit` entered with counter `c` makes `100 - c` further `SSL_connect` calls
and `99 - c` sleeps, then gives `NULL`. -/
theorem openssl_sslinit_repeat_transient {σ : Type} (E : Env σ)
    (h : OpenSSL.ConnectTransient E) (x : OpenSSL.ctx) :
    ∀ (n c : Nat) (w : World σ), c + n = 99 →
      (OpenSSL.sslinit_repeat E x c w).1 = none ∧
      callCount isSSL_connect (OpenSSL.sslinit_repeat E x c w).2.trace
        = callCount isSSL_connect w.trace + (n + 1) ∧
      sleeps (OpenSSL.sslinit_repeat E x c w).2.trace
        = sleeps w.trace ++ List.replicate n 10000 := by
  intro n
  induction n with
  | zero =>
    intro c w hc
    have hr : (perform E (.SSL_connect x.ssl) w).1.ret ≠ 1 := h.1 _ _
    have he : (perform E (.SSL_get_error x.ssl (perform E (.SSL_connect x.ssl) w).1.ret)
        (perform E (.SSL_connect x.ssl) w).2).1.ret = SSL_ERROR_WANT_READ ∨
      (perform E (.SSL_get_error x.ssl (perform E (.SSL_connect x.ssl) w).1.ret)
        (perform E (.SSL_connect x.ssl) w).2).1.ret = SSL_ERROR_WANT_WRITE := h.2 _ _ _
    have hc2 : ¬ (c + 1 < 100) := by omega
    rw [OpenSSL.sslinit_repeat]
    simp [hr, he, hc2, isSSL_connect, OpenSSL.err3, OpenSSL.err2, OpenSSL.err1]
  | succ n ih =>
    intro c w hc
    have hr : (perform E (.SSL_connect x.ssl) w).1.ret ≠ 1 := h.1 _ _
    have he : (perform E (.SSL_get_error x.ssl (perform E (.SSL_connect x.ssl) w).1.ret)
        (perform E (.SSL_connect x.ssl) w).2).1.ret = SSL_ERROR_WANT_READ ∨
      (perform E (.SSL_get_error x.ssl (perform E (.SSL_connect x.ssl) w).1.ret)
        (perform E (.SSL_connect x.ssl) w).2).1.ret = SSL_ERROR_WANT_WRITE := h.2 _ _ _
    have hc2 : c + 1 < 100 := by omega
    rw [OpenSSL.sslinit_repeat]
    simp only [hr, he, hc2, if_true, if_false, ne_eq, not_false_eq_true]
    obtain ⟨h1, h2, h3⟩ := ih (c + 1) (perform E (.usleep 10000)
      (perform E (.SSL_get_error x.ssl (perform E (.SSL_connect x.ssl) w).1.ret)
        (perform E (.SSL_connect x.ssl) w).2).2).2 (by omega)
    refine ⟨h1, ?_, ?_⟩
    · rw [h2]
      simp [isSSL_connect]
      omega
    · rw [h3]
      simp [List.replicate_succ]

/-- What the handshake step of the OpenSSL `sslinit` does to a trace, whatever
the engine answers: at most `100 - c` further `SSL_connect` calls; nothing is
acquired; on failure `SSL_free`, `SSL_CTX_free` and `free` are called, in this
order, and on success nothing is released and the session is returned; no
`close`, no `SSL_CTX_set_verify`, no `SSL_CTX_load_verify_locations`. -/
theorem openssl_sslinit_repeat_effect {σ : Type} (E : Env σ) (x : OpenSSL.ctx) :
    ∀ (n c : Nat) (w : World σ), c + n = 99 →
      callCount isSSL_connect (OpenSSL.sslinit_repeat E x c w).2.trace
        ≤ callCount isSSL_connect w.trace + (n + 1) ∧
      acquired (OpenSSL.sslinit_repeat E x c w).2.trace = acquired w.trace ∧
      (((OpenSSL.sslinit_repeat E x c w).1 = none ∧
          released (OpenSSL.sslinit_repeat E x c w).2.trace
            = released w.trace ++ [.ssl x.ssl, .ssl_ctx x.ctx, .memory x.self]) ∨
        ((OpenSSL.sslinit_repeat E x c w).1 = some x ∧
          released (OpenSSL.sslinit_repeat E x c w).2.trace = released w.trace)) ∧
      callCount isClose (OpenSSL.sslinit_repeat E x c w).2.trace = callCount isClose w.trace ∧
      verifyModes (OpenSSL.sslinit_repeat E x c w).2.trace = verifyModes w.trace ∧
      callCount isLoadVerify (OpenSSL.sslinit_repeat E x c w).2.trace
        = callCount isLoadVerify w.trace := by
  intro n
  induction n with
  | zero =>
    intro c w hc
    rw [OpenSSL.sslinit_repeat]
    simp only []
    split_ifs with h1 h2 h3
    · omega
    all_goals
      simp [OpenSSL.err3, OpenSSL.err2, OpenSSL.err1, isSSL_connect, isClose, isLoadVerify,
        acquired, released, verifyModes]
  | succ n ih =>
    intro c w hc
    rw [OpenSSL.sslinit_repeat]
    simp only []
    split_ifs with h1 h2 h3
    · obtain ⟨i1, i2, i3, i4, i5, i6⟩ := ih (c + 1) (perform E (.usleep 10000)
        (perform E (.SSL_get_error x.ssl (perform E (.SSL_connect x.ssl) w).1.ret)
          (perform E (.SSL_connect x.ssl) w).2).2).2 (by omega)
      refine ⟨?_, ?_, ?_, ?_, ?_, ?_⟩
      · refine le_trans i1 ?_
        simp [isSSL_connect]
        omega
      · rw [i2]
        simp [acquired]
      · rcases i3 with ⟨j1, j2⟩ | ⟨j1, j2⟩
        · left
          refine ⟨j1, ?_⟩
          rw [j2]
          simp [released]
        · right
          refine ⟨j1, ?_⟩
          rw [j2]
          simp [released]
      · rw [i4]
        simp [isClose]
      · rw [i5]
        simp [verifyModes]
      · rw [i6]
        simp [isLoadVerify]
    all_goals
      simp [OpenSSL.err3, OpenSSL.err2, OpenSSL.err1, isSSL_connect, isClose, isLoadVerify,
        acquired, released, verifyModes]

/-- With every handshake attempt transient, the GnuTLS handshake loop never
ends: whatever the number of attempts allowed, it has made that many
`gnutls_handshake` calls, without a sleep, and is still running. -/
theorem gnutls_handshake_loop_transient {σ : Type} (E : Env σ)
    (h : GnuTLS.HandshakeTransient E) (ssl : Ptr) :
    ∀ (fuel : Nat) (w : World σ),
      ∃ w1, GnuTLS.handshake_loop E ssl fuel w = .unfinished w1 ∧
        callCount isHandshake w1.trace = callCount isHandshake w.trace + fuel ∧
        sleeps w1.trace = sleeps w.trace := by
  intro fuel
  induction fuel with
  | zero =>
    intro w
    exact ⟨w, rfl, rfl, rfl⟩
  | succ fuel ih =>
    intro w
    have hr : (perform E (.gnutls_handshake ssl) w).1.ret < 0 := h.1 _ _
    have hf : (perform E (.gnutls_error_is_fatal (perform E (.gnutls_handshake ssl) w).1.ret)
        (perform E (.gnutls_handshake ssl) w).2).1.ret = 0 := h.2 _ _
    obtain ⟨w1, h1, h2, h3⟩ := ih (perform E (.gnutls_error_is_fatal
      (perform E (.gnutls_handshake ssl) w).1.ret) (perform E (.gnutls_handshake ssl) w).2).2
    refine ⟨w1, ?_, ?_, ?_⟩
    · rw [GnuTLS.handshake_loop]
      simp only [hr, hf, if_true]
      exact h1
    · rw [h2]
      simp [isHandshake]
      omega
    · rw [h3]
      simp

/-- What the GnuTLS handshake loop does to a trace, whatever the engine answers
and wherever it stops: nothing is acquired or released, and there is no `close`,
no sleep, no `gnutls_certificate_set_x509_trust_file` and no
`gnutls_certificate_set_verify_function`. -/
theorem gnutls_handshake_loop_effect {σ : Type} (E : Env σ) (ssl : Ptr) :
    ∀ (fuel : Nat) (w : World σ),
      acquired (GnuTLS.handshake_loop E ssl fuel w).world.trace = acquired w.trace ∧
      released (GnuTLS.handshake_loop E ssl fuel w).world.trace = released w.trace ∧
      callCount isClose (GnuTLS.handshake_loop E ssl fuel w).world.trace
        = callCount isClose w.trace ∧
      callCount isTrustFile (GnuTLS.handshake_loop E ssl fuel w).world.trace
        = callCount isTrustFile w.trace ∧
      callCount isSetVerifyFunction (GnuTLS.handshake_loop E ssl fuel w).world.trace
        = callCount isSetVerifyFunction w.trace := by
  intro fuel
  induction fuel with
  | zero =>
    intro w
    simp [GnuTLS.handshake_loop, Run.world]
  | succ fuel ih =>
    intro w
    rw [GnuTLS.handshake_loop]
    simp only []
    split_ifs with h1 h2
    · obtain ⟨i1, i2, i3, i4, i5⟩ := ih (perform E (.gnutls_error_is_fatal
        (perform E (.gnutls_handshake ssl) w).1.ret) (perform E (.gnutls_handshake ssl) w).2).2
      rw [i1, i2, i3, i4, i5]
      simp [acquired, released, isClose, isTrustFile, isSetVerifyFunction]
    all_goals
      simp [Run.world, acquired, released, isClose, isTrustFile, isSetVerifyFunction]

/-- A handshake attempt that reports no error ends the GnuTLS handshake loop at
once. -/
theorem gnutls_handshake_loop_success {σ : Type} (E : Env σ) (ssl : Ptr) (fuel : Nat)
    (w : World σ) (h : 0 ≤ (perform E (.gnutls_handshake ssl) w).1.ret) :
    GnuTLS.handshake_loop E ssl (fuel + 1) w
      = .returned (perform E (.gnutls_handshake ssl) w).1.ret
          (perform E (.gnutls_handshake ssl) w).2 := by
  rw [GnuTLS.handshake_loop]
  simp [not_lt.mpr h]

/-! ### The stages of the OpenSSL `sslinit` -/

@[simp] theorem acquired_cons (e e2 : Event) (t : List Event) :
    acquired (e :: e2 :: t) = acquired [e] ++ acquired (e2 :: t) := by
  rw [← List.singleton_append, acquired_append]

@[simp] theorem released_cons (e e2 : Event) (t : List Event) :
    released (e :: e2 :: t) = released [e] ++ released (e2 :: t) := by
  rw [← List.singleton_append, released_append]

@[simp] theorem verifyModes_cons (e e2 : Event) (t : List Event) :
    verifyModes (e :: e2 :: t) = verifyModes [e] ++ verifyModes (e2 :: t) := by
  rw [← List.singleton_append, verifyModes_append]

theorem acquired_one (c : Call) (r : Int) (o : Ptr) :
    acquired [⟨c, r, o⟩] = match c with
      | .malloc => if r ≠ 0 then [.memory r] else []
      | .SSL_CTX_new _ => if r ≠ 0 then [.ssl_ctx r] else []
      | .SSL_new _ => if r ≠ 0 then [.ssl r] else []
      | .gnutls_global_init => if r = 0 then [.global] else []
      | .gnutls_certificate_allocate_credentials => if r = 0 then [.credentials o] else []
      | .gnutls_init => if r = 0 then [.session o] else []
      | _ => [] := by
  cases c <;> simp [acquired] <;> split_ifs <;> simp_all

theorem released_one (c : Call) (r : Int) (o : Ptr) :
    released [⟨c, r, o⟩] = match c with
      | .free p => [.memory p]
      | .SSL_CTX_free h => [.ssl_ctx h]
      | .SSL_free h => [.ssl h]
      | .gnutls_global_deinit => [.global]
      | .gnutls_certificate_free_credentials h => [.credentials h]
      | .gnutls_deinit h => [.session h]
      | _ => [] := by
  cases c <;> simp [released]

theorem verifyModes_one (c : Call) (r : Int) (o : Ptr) :
    verifyModes [⟨c, r, o⟩] = match c with
      | .SSL_CTX_set_verify _ m => [m]
      | _ => [] := by
  cases c <;> simp [verifyModes]

/-- The handshake step of the OpenSSL `sslinit`, entered with a fresh counter,
seen from its result. -/
theorem openssl_sslinit_repeat_effect0 {σ : Type} (E : Env σ) (x : OpenSSL.ctx) (w : World σ)
    (res : Option OpenSSL.ctx × World σ) (hres : OpenSSL.sslinit_repeat E x 0 w = res) :
    callCount isSSL_connect res.2.trace ≤ callCount isSSL_connect w.trace + 100 ∧
    acquired res.2.trace = acquired w.trace ∧
    ((res.1 = none ∧
        released res.2.trace = released w.trace ++ [.ssl x.ssl, .ssl_ctx x.ctx, .memory x.self]) ∨
      (res.1 = some x ∧ released res.2.trace = released w.trace)) ∧
    callCount isClose res.2.trace = callCount isClose w.trace ∧
    verifyModes res.2.trace = verifyModes w.trace ∧
    callCount isLoadVerify res.2.trace = callCount isLoadVerify w.trace := by
  subst hres
  exact openssl_sslinit_repeat_effect E x 99 0 w (by omega)

/-- What lines 99 to 133 of the OpenSSL `sslinit` do to a trace, whatever the
engine answers: at most 100 `SSL_connect` calls, no `close`, no bundle load, one
`SSL_CTX_set_verify` whose mode follows `untrusted`, at most the `SSL` object
acquired, and on failure the release of what was acquired, then of the
`SSL_CTX` and of the session memory. -/
theorem openssl_sslinit_verify_effect {σ : Type} (E : Env σ) (x1 : OpenSSL.ctx)
    (untrusted : Int) (w : World σ) (res : Option OpenSSL.ctx × World σ)
    (hres : OpenSSL.sslinit_verify E x1 untrusted w = res) :
    callCount isSSL_connect res.2.trace ≤ callCount isSSL_connect w.trace + 100 ∧
    callCount isClose res.2.trace = callCount isClose w.trace ∧
    callCount isLoadVerify res.2.trace = callCount isLoadVerify w.trace ∧
    verifyModes res.2.trace
      = verifyModes w.trace
        ++ [if untrusted ≠ 0 then .SSL_VERIFY_NONE else .SSL_VERIFY_PEER] ∧
    ∃ acq, acquired res.2.trace = acquired w.trace ++ acq ∧
      (acq = [] ∨ ∃ h, acq = [.ssl h]) ∧
      ((res.1 = none ∧
          released res.2.trace
            = released w.trace ++ acq.reverse ++ [.ssl_ctx x1.ctx, .memory x1.self]) ∨
        ((∃ x, res.1 = some x) ∧ released res.2.trace = released w.trace)) := by
  subst hres
  unfold OpenSSL.sslinit_verify
  simp only []
  split_ifs with h1 h2 h3 h4 h5
  all_goals first
    | (generalize hres : OpenSSL.sslinit_repeat E _ 0 _ = res
       obtain ⟨i1, i2, i3, i4, i5, i6⟩ := openssl_sslinit_repeat_effect0 E _ _ _ hres
       refine ⟨le_trans i1 (by simp [isSSL_connect]), by rw [i4]; simp [isClose],
         by rw [i6]; simp [isLoadVerify], by rw [i5]; simp [verifyModes_one, *], ?_⟩
       rcases i3 with ⟨a, b⟩ | ⟨a, b⟩ <;> simp [a, b, i2, acquired_one, released_one, *])
    | (refine ⟨?_, ?_, ?_, ?_, ?_⟩ <;>
         simp [OpenSSL.err3, OpenSSL.err2, OpenSSL.err1, isSSL_connect, isClose,
           isLoadVerify, acquired_one, released_one, verifyModes_one, *])

/-- What lines 76 to 133 of the OpenSSL `sslinit` do to a trace, whatever the
engine answers. -/
theorem openssl_sslinit_tls_effect {σ : Type} (E : Env σ) (x0 : OpenSSL.ctx) (cacert : Ptr)
    (untrusted : Int) (w : World σ) (res : Option OpenSSL.ctx × World σ)
    (hres : OpenSSL.sslinit_tls E x0 cacert untrusted w = res) :
    callCount isSSL_connect res.2.trace ≤ callCount isSSL_connect w.trace + 100 ∧
    callCount isClose res.2.trace = callCount isClose w.trace ∧
    (cacert = 0 → callCount isLoadVerify res.2.trace = callCount isLoadVerify w.trace) ∧
    (verifyModes res.2.trace = verifyModes w.trace ∨
      verifyModes res.2.trace
        = verifyModes w.trace
          ++ [if untrusted ≠ 0 then .SSL_VERIFY_NONE else .SSL_VERIFY_PEER]) ∧
    ∃ acq, acquired res.2.trace = acquired w.trace ++ acq ∧
      (acq = [] ∨ (∃ h, acq = [.ssl_ctx h]) ∨ ∃ h k, acq = [.ssl_ctx h, .ssl k]) ∧
      ((res.1 = none ∧
          released res.2.trace = released w.trace ++ acq.reverse ++ [.memory x0.self]) ∨
        ((∃ x, res.1 = some x) ∧ released res.2.trace = released w.trace)) := by
  subst hres
  unfold OpenSSL.sslinit_tls
  simp only []
  split_ifs with h1 h2 h3
  all_goals first
    | (generalize hres : OpenSSL.sslinit_verify E _ _ _ = res
       obtain ⟨i1, i2, i3, i4, acq, i5, i6, i7⟩ :=
         openssl_sslinit_verify_effect E _ _ _ _ hres
       refine ⟨le_trans i1 (by simp [isSSL_connect]), by rw [i2]; simp [isClose],
         fun hc => by rw [i3]; simp_all [isLoadVerify],
         Or.inr (by rw [i4]; simp [verifyModes_one, *]), ?_⟩
       rcases i6 with rfl | ⟨k, rfl⟩ <;> rcases i7 with ⟨a, b⟩ | ⟨a, b⟩ <;>
         simp [a, b, i5, acquired_one, released_one, *])
    | (refine ⟨?_, ?_, ?_, ?_, ?_⟩ <;>
         simp [OpenSSL.err3, OpenSSL.err2, OpenSSL.err1, isSSL_connect, isClose,
           isLoadVerify, acquired_one, released_one, verifyModes_one, *])

/-- What the OpenSSL `sslinit` does to a trace, whatever the engine answers: at
most 100 `SSL_connect` calls, no `close`, no bundle load without cacert, at most
one `SSL_CTX_set_verify` whose mode follows `untrusted`; the objects acquired
are distinct, and on failure exactly they are released, last acquired first,
while on success nothing is released. -/
theorem openssl_sslinit_effect {σ : Type} (E : Env σ) (fd : Int) (cacert : Ptr)
    (untrusted : Int) (w : World σ) (res : Option OpenSSL.ctx × World σ)
    (hres : OpenSSL.sslinit E fd cacert untrusted w = res) :
    callCount isSSL_connect res.2.trace ≤ callCount isSSL_connect w.trace + 100 ∧
    callCount isClose res.2.trace = callCount isClose w.trace ∧
    (cacert = 0 → callCount isLoadVerify res.2.trace = callCount isLoadVerify w.trace) ∧
    (verifyModes res.2.trace = verifyModes w.trace ∨
      verifyModes res.2.trace
        = verifyModes w.trace
          ++ [if untrusted ≠ 0 then .SSL_VERIFY_NONE else .SSL_VERIFY_PEER]) ∧
    ∃ acq, acquired res.2.trace = acquired w.trace ++ acq ∧ acq.Nodup ∧
      ((res.1 = none ∧ released res.2.trace = released w.trace ++ acq.reverse) ∨
        ((∃ x, res.1 = some x) ∧ released res.2.trace = released w.trace)) := by
  subst hres
  unfold OpenSSL.sslinit OpenSSL.newctx
  simp only []
  by_cases hm : (perform E .malloc w).1.ret = 0
  · simp only [hm, if_true]
    refine ⟨?_, ?_, ?_, ?_, ?_⟩ <;>
      simp [isSSL_connect, isClose, isLoadVerify, acquired_one, released_one,
        verifyModes_one, hm]
  · simp only [hm, if_false]
    by_cases hp : cacert = 0 ∧ untrusted = 0
    · simp only [hp, and_self, if_true]
      refine ⟨?_, ?_, ?_, ?_, ?_⟩ <;>
        simp [isSSL_connect, isClose, isLoadVerify, acquired_one, released_one,
          verifyModes_one, hm]
    · simp only [hp, if_false]
      generalize hres : OpenSSL.sslinit_tls E _ _ _ _ = res
      obtain ⟨i1, i2, i3, i4, acq, i5, i6, i7⟩ :=
        openssl_sslinit_tls_effect E _ _ _ _ _ hres
      refine ⟨le_trans i1 (by simp [isSSL_connect]), by rw [i2]; simp [isClose],
        fun hc => by rw [i3 hc]; simp [isLoadVerify], ?_, ?_⟩
      · rcases i4 with i4 | i4
        · exact Or.inl (by rw [i4]; simp [verifyModes_one])
        · exact Or.inr (by rw [i4]; simp [verifyModes_one])
      · rcases i6 with rfl | ⟨h, rfl⟩ | ⟨h, k, rfl⟩ <;> rcases i7 with ⟨a, b⟩ | ⟨a, b⟩ <;>
          simp [a, b, i5, acquired_one, released_one, hm]

/-- With every handshake attempt transient, the handshake step of the OpenSSL
`sslinit`, seen from its result. -/
theorem openssl_sslinit_repeat_transient0 {σ : Type} (E : Env σ)
    (h : OpenSSL.ConnectTransient E) (x : OpenSSL.ctx) (w : World σ)
    (res : Option OpenSSL.ctx × World σ) (hres : OpenSSL.sslinit_repeat E x 0 w = res) :
    res.1 = none ∧
    callCount isSSL_connect res.2.trace = callCount isSSL_connect w.trace + 100 ∧
    sleeps res.2.trace = sleeps w.trace ++ List.replicate 99 10000 := by
  subst hres
  exact openssl_sslinit_repeat_transient E h x 99 0 w (by omega)

/-- With every handshake attempt transient, lines 99 to 133 of the OpenSSL
`sslinit`, once they reach the handshake step, fail after exactly 100
`SSL_connect` calls and 99 sleeps. -/
theorem openssl_sslinit_verify_transient {σ : Type} (E : Env σ)
    (h : OpenSSL.ConnectTransient E) (x1 : OpenSSL.ctx) (untrusted : Int) (w : World σ)
    (res : Option OpenSSL.ctx × World σ)
    (hres : OpenSSL.sslinit_verify E x1 untrusted w = res)
    (hreach : callCount isSSL_connect w.trace < callCount isSSL_connect res.2.trace) :
    res.1 = none ∧
    callCount isSSL_connect res.2.trace = callCount isSSL_connect w.trace + 100 ∧
    sleeps res.2.trace = sleeps w.trace ++ List.replicate 99 10000 := by
  subst hres
  unfold OpenSSL.sslinit_verify at hreach ⊢
  simp only [] at hreach ⊢
  split_ifs at hreach ⊢
  all_goals first
    | (exfalso
       simp [OpenSSL.err3, OpenSSL.err2, OpenSSL.err1, isSSL_connect] at hreach
       done)
    | (generalize hres : OpenSSL.sslinit_repeat E _ 0 _ = res
       obtain ⟨i1, i2, i3⟩ := openssl_sslinit_repeat_transient0 E h _ _ _ hres
       exact ⟨i1, by rw [i2]; simp [isSSL_connect], by rw [i3]; simp⟩)

/-- With every handshake attempt transient, lines 76 to 133 of the OpenSSL
`sslinit`, once they reach the handshake step, fail after exactly 100
`SSL_connect` calls and 99 sleeps. -/
theorem openssl_sslinit_tls_transient {σ : Type} (E : Env σ)
    (h : OpenSSL.ConnectTransient E) (x0 : OpenSSL.ctx) (cacert : Ptr) (untrusted : Int)
    (w : World σ) (res : Option OpenSSL.ctx × World σ)
    (hres : OpenSSL.sslinit_tls E x0 cacert untrusted w = res)
    (hreach : callCount isSSL_connect w.trace < callCount isSSL_connect res.2.trace) :
    res.1 = none ∧
    callCount isSSL_connect res.2.trace = callCount isSSL_connect w.trace + 100 ∧
    sleeps res.2.trace = sleeps w.trace ++ List.replicate 99 10000 := by
  subst hres
  unfold OpenSSL.sslinit_tls at hreach ⊢
  simp only [] at hreach ⊢
  split_ifs at hreach ⊢
  all_goals first
    | (exfalso
       simp [OpenSSL.err3, OpenSSL.err2, OpenSSL.err1, isSSL_connect] at hreach
       done)
    | (generalize hres : OpenSSL.sslinit_verify E _ _ _ = res at hreach ⊢
       obtain ⟨i1, i2, i3⟩ := openssl_sslinit_verify_transient E h _ _ _ _ hres
         (by simpa [isSSL_connect] using hreach)
       exact ⟨i1, by rw [i2]; simp [isSSL_connect], by rw [i3]; simp⟩)

/-- With every handshake attempt transient, the OpenSSL `sslinit`, once it
reaches the handshake step, fails after exactly 100 `SSL_connect` calls and 99
sleeps. -/
theorem openssl_sslinit_transient {σ : Type} (E : Env σ)
    (h : OpenSSL.ConnectTransient E) (fd : Int) (cacert : Ptr) (untrusted : Int)
    (w : World σ) (res : Option OpenSSL.ctx × World σ)
    (hres : OpenSSL.sslinit E fd cacert untrusted w = res)
    (hreach : callCount isSSL_connect w.trace < callCount isSSL_connect res.2.trace) :
    res.1 = none ∧
    callCount isSSL_connect res.2.trace = callCount isSSL_connect w.trace + 100 ∧
    sleeps res.2.trace = sleeps w.trace ++ List.replicate 99 10000 := by
  subst hres
  unfold OpenSSL.sslinit OpenSSL.newctx at hreach ⊢
  simp only [] at hreach ⊢
  by_cases hm : (perform E .malloc w).1.ret = 0
  · exfalso
    simp [hm, isSSL_connect] at hreach
  · simp only [hm, if_false] at hreach ⊢
    by_cases hp : cacert = 0 ∧ untrusted = 0
    · exfalso
      simp [hp, isSSL_connect] at hreach
    · simp only [hp, if_false] at hreach ⊢
      generalize hres : OpenSSL.sslinit_tls E _ _ _ _ = res at hreach ⊢
      obtain ⟨i1, i2, i3⟩ := openssl_sslinit_tls_transient E h _ _ _ _ _ hres
        (by simpa [isSSL_connect] using hreach)
      exact ⟨i1, by rw [i2]; simp [isSSL_connect], by rw [i3]; simp⟩

/-- When engine creation and the handshake succeed, lines 99 to 133 of the
OpenSSL `sslinit` return a session. -/
theorem openssl_sslinit_verify_success {σ : Type} (E : Env σ)
    (h : OpenSSL.EngineSucceeds E) (x1 : OpenSSL.ctx) (untrusted : Int) (w : World σ) :
    ∃ x, (OpenSSL.sslinit_verify E x1 untrusted w).1 = some x := by
  obtain ⟨-, -, h3, h4, h5⟩ := h
  unfold OpenSSL.sslinit_verify
  simp only [perform_reply, h3, h4, if_false]
  rw [OpenSSL.sslinit_repeat]
  simp [perform_reply, h5]

/-- When engine creation and the handshake succeed, the OpenSSL `sslinit`
called without cacert returns a session. -/
theorem openssl_sslinit_success {σ : Type} (E : Env σ) (h : OpenSSL.EngineSucceeds E)
    (fd : Int) (untrusted : Int) (w : World σ) :
    ∃ x, (OpenSSL.sslinit E fd 0 untrusted w).1 = some x := by
  have hv := openssl_sslinit_verify_success E h
  obtain ⟨h1, h2, -⟩ := h
  unfold OpenSSL.sslinit OpenSSL.newctx OpenSSL.sslinit_tls
  by_cases hu : untrusted = 0
  · simp [perform_reply, h1, hu]
  · simp only [perform_reply, h1, h2, hu, if_false, and_false, ne_eq, not_true_eq_false]
    exact hv _ _ _

/-- When the bundle cannot be loaded while `malloc` and `SSL_CTX_new` succeed,
the OpenSSL `sslinit` called with a cacert loads the bundle once and fails,
whatever `untrusted` is. -/
theorem openssl_sslinit_bundle_fails {σ : Type} (E : Env σ) (h : OpenSSL.EngineSucceeds E)
    (hb : OpenSSL.BundleFails E) (fd : Int) (cacert : Ptr) (hc : cacert ≠ 0)
    (untrusted : Int) (w : World σ) :
    (OpenSSL.sslinit E fd cacert untrusted w).1 = none ∧
    callCount isLoadVerify (OpenSSL.sslinit E fd cacert untrusted w).2.trace
      = callCount isLoadVerify w.trace + 1 := by
  obtain ⟨h1, h2, -⟩ := h
  unfold OpenSSL.sslinit OpenSSL.newctx OpenSSL.sslinit_tls
  simp [perform_reply, h1, h2, hc, hb _ _ _, OpenSSL.err2, OpenSSL.err1, isLoadVerify]

/-! ### The stages of the GnuTLS `sslinit` -/

/-- The GnuTLS handshake loop, seen from its result. -/
theorem gnutls_handshake_loop_effect0 {σ : Type} (E : Env σ) (ssl : Ptr) (fuel : Nat)
    (w : World σ) (run : Run Int σ) (hrun : GnuTLS.handshake_loop E ssl fuel w = run) :
    acquired run.world.trace = acquired w.trace ∧
    released run.world.trace = released w.trace ∧
    callCount isClose run.world.trace = callCount isClose w.trace ∧
    callCount isTrustFile run.world.trace = callCount isTrustFile w.trace ∧
    callCount isSetVerifyFunction run.world.trace
      = callCount isSetVerifyFunction w.trace := by
  subst hrun
  exact gnutls_handshake_loop_effect E ssl fuel w

/-- With every handshake attempt transient, the GnuTLS handshake loop, seen from
its result. -/
theorem gnutls_handshake_loop_transient0 {σ : Type} (E : Env σ)
    (h : GnuTLS.HandshakeTransient E) (ssl : Ptr) (fuel : Nat) (w : World σ)
    (run : Run Int σ) (hrun : GnuTLS.handshake_loop E ssl fuel w = run) :
    ∃ w1, run = .unfinished w1 ∧
      callCount isHandshake w1.trace = callCount isHandshake w.trace + fuel ∧
      sleeps w1.trace = sleeps w.trace := by
  subst hrun
  exact gnutls_handshake_loop_transient E h ssl fuel w

/-- What lines 303 to 343 of the GnuTLS `sslinit` do to a trace, whatever the
engine answers and wherever the handshake loop stops: no `close`, no bundle
load, no verify function; at most the engine session acquired; and when they
return `NULL`, the release of what was acquired, then of the credentials, of
the global state and of the session memory. -/
theorem gnutls_sslinit_session_effect {σ : Type} (E : Env σ) (fuel : Nat) (x1 : GnuTLS.ctx)
    (w : World σ) (res : Run (Option GnuTLS.ctx) σ)
    (hres : GnuTLS.sslinit_session E fuel x1 w = res) :
    callCount isClose res.world.trace = callCount isClose w.trace ∧
    callCount isTrustFile res.world.trace = callCount isTrustFile w.trace ∧
    callCount isSetVerifyFunction res.world.trace = callCount isSetVerifyFunction w.trace ∧
    ∃ acq, acquired res.world.trace = acquired w.trace ++ acq ∧
      (acq = [] ∨ ∃ h, acq = [.session h]) ∧
      ((∃ w1, res = .returned none w1) →
        released res.world.trace
          = released w.trace ++ acq.reverse
            ++ [.credentials x1.cred, .global, .memory x1.self]) := by
  subst hres
  unfold GnuTLS.sslinit_session
  simp only []
  split_ifs with h1 h2 h3
  all_goals try simp only [ne_eq, not_not] at *
  · refine ⟨?_, ?_, ?_, ?_⟩ <;>
      simp [GnuTLS.err4, GnuTLS.err3, GnuTLS.err2, GnuTLS.err1, GnuTLS.report, Run.world,
        isClose, isTrustFile, isSetVerifyFunction, acquired_one, released_one, *]
  · refine ⟨?_, ?_, ?_, ?_⟩ <;>
      simp [GnuTLS.err4, GnuTLS.err3, GnuTLS.err2, GnuTLS.err1, GnuTLS.report, Run.world,
        isClose, isTrustFile, isSetVerifyFunction, acquired_one, released_one, *]
  · refine ⟨?_, ?_, ?_, ?_⟩ <;>
      simp [GnuTLS.err4, GnuTLS.err3, GnuTLS.err2, GnuTLS.err1, GnuTLS.report, Run.world,
        isClose, isTrustFile, isSetVerifyFunction, acquired_one, released_one, *]
  · refine ⟨?_, ?_, ?_, ?_⟩ <;>
      simp [GnuTLS.err4, GnuTLS.err3, GnuTLS.err2, GnuTLS.err1, GnuTLS.report, Run.world,
        isClose, isTrustFile, isSetVerifyFunction, acquired_one, released_one, *]
  · generalize hrun : GnuTLS.handshake_loop E _ fuel _ = run
    obtain ⟨i1, i2, i3, i4, i5⟩ := gnutls_handshake_loop_effect0 E _ _ _ _ hrun
    rcases run with ⟨r, w5⟩ | w5
    · simp only [Run.world] at i1 i2 i3 i4 i5
      simp only []
      split_ifs with h4
      · refine ⟨?_, ?_, ?_, ?_⟩ <;>
          simp [GnuTLS.err4, GnuTLS.err3, GnuTLS.err2, GnuTLS.err1, GnuTLS.report, Run.world,
            isClose, isTrustFile, isSetVerifyFunction, acquired_one, released_one, *]
      · refine ⟨?_, ?_, ?_, ?_⟩ <;>
          simp [Run.world, isClose, isTrustFile, isSetVerifyFunction, acquired_one,
            released_one, *]
    · simp only [Run.world] at i1 i2 i3 i4 i5
      refine ⟨?_, ?_, ?_, ?_⟩ <;>
        simp [Run.world, isClose, isTrustFile, isSetVerifyFunction, acquired_one,
          released_one, *]

/-- What lines 266 to 343 of the GnuTLS `sslinit` do to a trace, whatever the
engine answers and wherever the handshake loop stops. -/
theorem gnutls_sslinit_tls_effect {σ : Type} (E : Env σ) (fuel : Nat) (xcred : Ptr)
    (x0 : GnuTLS.ctx) (cacert : Ptr) (untrusted : Int) (w : World σ)
    (res : Run (Option GnuTLS.ctx) σ)
    (hres : GnuTLS.sslinit_tls E fuel xcred x0 cacert untrusted w = res) :
    callCount isClose res.world.trace = callCount isClose w.trace ∧
    (untrusted ≠ 0 →
      callCount isTrustFile res.world.trace = callCount isTrustFile w.trace ∧
      callCount isSetVerifyFunction res.world.trace
        = callCount isSetVerifyFunction w.trace) ∧
    ∃ acq, acquired res.world.trace = acquired w.trace ++ acq ∧
      (acq = [] ∨ acq = [.global] ∨ (∃ h, acq = [.global, .credentials h]) ∨
        ∃ h k, acq = [.global, .credentials h, .session k]) ∧
      ((∃ w1, res = .returned none w1) →
        released res.world.trace
          = released w.trace ++ acq.reverse ++ [.memory x0.self]) := by
  subst hres
  unfold GnuTLS.sslinit_tls
  simp only []
  split_ifs with h1 h2 h3 h4
  all_goals try simp only [ne_eq, not_not] at *
  all_goals first
    | (generalize hres : GnuTLS.sslinit_session E _ _ _ = res
       obtain ⟨i1, i2, i3, acq, i4, i5, i6⟩ := gnutls_sslinit_session_effect E _ _ _ _ hres
       refine ⟨by rw [i1]; simp [isClose],
         fun hu => ⟨by rw [i2]; simp_all [isTrustFile],
           by rw [i3]; simp_all [isSetVerifyFunction]⟩, ?_⟩
       rcases i5 with rfl | ⟨k, rfl⟩ <;>
         refine ⟨_, by rw [i4]; simp [acquired_one, *]; rfl, by simp, fun hn => ?_⟩ <;>
         rw [i6 hn] <;> simp [released_one])
    | (refine ⟨?_, ?_, ?_⟩ <;>
         simp [GnuTLS.err4, GnuTLS.err3, GnuTLS.err2, GnuTLS.err1, GnuTLS.report, Run.world,
           isClose, isTrustFile, isSetVerifyFunction, acquired_one, released_one, *])

/-- What the GnuTLS `sslinit` does to a trace, whatever the engine answers and
wherever the handshake loop stops: no `close`; with `untrusted` set, no bundle
load and no verify function; the objects acquired are distinct, and when
`sslinit` returns `NULL` exactly they are released, last acquired first. -/
theorem gnutls_sslinit_effect {σ : Type} (E : Env σ) (fuel : Nat) (xcred : Ptr) (fd : Int)
    (cacert : Ptr) (untrusted : Int) (w : World σ) (res : Run (Option GnuTLS.ctx) σ)
    (hres : GnuTLS.sslinit E fuel xcred fd cacert untrusted w = res) :
    callCount isClose res.world.trace = callCount isClose w.trace ∧
    (untrusted ≠ 0 →
      callCount isTrustFile res.world.trace = callCount isTrustFile w.trace ∧
      callCount isSetVerifyFunction res.world.trace
        = callCount isSetVerifyFunction w.trace) ∧
    ∃ acq, acquired res.world.trace = acquired w.trace ++ acq ∧ acq.Nodup ∧
      ((∃ w1, res = .returned none w1) →
        released res.world.trace = released w.trace ++ acq.reverse) := by
  subst hres
  unfold GnuTLS.sslinit GnuTLS.newctx
  simp only []
  by_cases hm : (perform E .malloc w).1.ret = 0
  · simp only [hm, if_true]
    refine ⟨?_, ?_, ?_⟩ <;>
      simp [Run.world, isClose, isTrustFile, isSetVerifyFunction, acquired_one, released_one,
        hm]
  · simp only [hm, if_false]
    by_cases hp : cacert = 0 ∧ untrusted = 0
    · simp only [hp, and_self, if_true]
      refine ⟨?_, ?_, ?_⟩ <;>
        simp [Run.world, isClose, isTrustFile, isSetVerifyFunction, acquired_one,
          released_one, hm]
    · simp only [hp, if_false]
      generalize hres : GnuTLS.sslinit_tls E _ _ _ _ _ _ = res
      obtain ⟨i1, i2, acq, i3, i4, i5⟩ := gnutls_sslinit_tls_effect E _ _ _ _ _ _ _ hres
      refine ⟨by rw [i1]; simp [isClose],
        fun hu => ⟨by rw [(i2 hu).1]; simp [isTrustFile],
          by rw [(i2 hu).2]; simp [isSetVerifyFunction]⟩, ?_⟩
      rcases i4 with rfl | rfl | ⟨h, rfl⟩ | ⟨h, k, rfl⟩ <;>
        refine ⟨_, by rw [i3]; simp [acquired_one, hm]; rfl, by simp, fun hn => ?_⟩ <;>
        rw [i5 hn] <;> simp [released_one]

/-- With every handshake attempt transient, lines 303 to 343 of the GnuTLS
`sslinit`, once they reach the handshake loop, never return: whatever the
number of attempts allowed, that many `gnutls_handshake` calls have been made,
without a sleep, and the loop is still running. -/
theorem gnutls_sslinit_session_transient {σ : Type} (E : Env σ)
    (h : GnuTLS.HandshakeTransient E) (fuel : Nat) (x1 : GnuTLS.ctx) (w : World σ)
    (res : Run (Option GnuTLS.ctx) σ) (hres : GnuTLS.sslinit_session E fuel x1 w = res)
    (hreach : callCount isHandshakeSetTimeout w.trace
      < callCount isHandshakeSetTimeout res.world.trace) :
    ∃ w1, res = .unfinished w1 ∧
      callCount isHandshake w1.trace = callCount isHandshake w.trace + fuel ∧
      sleeps w1.trace = sleeps w.trace := by
  subst hres
  unfold GnuTLS.sslinit_session at hreach ⊢
  simp only [] at hreach ⊢
  split_ifs at hreach ⊢
  all_goals first
    | (exfalso
       simp [GnuTLS.err4, GnuTLS.err3, GnuTLS.err2, GnuTLS.err1, GnuTLS.report, Run.world,
         isHandshakeSetTimeout] at hreach
       done)
    | (generalize hrun : GnuTLS.handshake_loop E _ fuel _ = run
       obtain ⟨w1, i1, i2, i3⟩ := gnutls_handshake_loop_transient0 E h _ _ _ _ hrun
       subst i1
       exact ⟨w1, rfl, by rw [i2]; simp [isHandshake], by rw [i3]; simp⟩)

/-- With every handshake attempt transient, lines 266 to 343 of the GnuTLS
`sslinit`, once they reach the handshake loop, never return. -/
theorem gnutls_sslinit_tls_transient {σ : Type} (E : Env σ)
    (h : GnuTLS.HandshakeTransient E) (fuel : Nat) (xcred : Ptr) (x0 : GnuTLS.ctx)
    (cacert : Ptr) (untrusted : Int) (w : World σ) (res : Run (Option GnuTLS.ctx) σ)
    (hres : GnuTLS.sslinit_tls E fuel xcred x0 cacert untrusted w = res)
    (hreach : callCount isHandshakeSetTimeout w.trace
      < callCount isHandshakeSetTimeout res.world.trace) :
    ∃ w1, res = .unfinished w1 ∧
      callCount isHandshake w1.trace = callCount isHandshake w.trace + fuel ∧
      sleeps w1.trace = sleeps w.trace := by
  subst hres
  unfold GnuTLS.sslinit_tls at hreach ⊢
  simp only [] at hreach ⊢
  split_ifs at hreach ⊢
  all_goals first
    | (exfalso
       simp [GnuTLS.err4, GnuTLS.err3, GnuTLS.err2, GnuTLS.err1, GnuTLS.report, Run.world,
         isHandshakeSetTimeout] at hreach
       done)
    | (generalize hres : GnuTLS.sslinit_session E _ _ _ = res at hreach ⊢
       obtain ⟨w1, i1, i2, i3⟩ := gnutls_sslinit_session_transient E h _ _ _ _ hres
         (by simpa [isHandshakeSetTimeout] using hreach)
       exact ⟨w1, i1, by rw [i2]; simp [isHandshake], by rw [i3]; simp⟩)

/-- With every handshake attempt transient, the GnuTLS `sslinit`, once it
reaches the handshake loop, never returns. -/
theorem gnutls_sslinit_transient {σ : Type} (E : Env σ)
    (h : GnuTLS.HandshakeTransient E) (fuel : Nat) (xcred : Ptr) (fd : Int) (cacert : Ptr)
    (untrusted : Int) (w : World σ) (res : Run (Option GnuTLS.ctx) σ)
    (hres : GnuTLS.sslinit E fuel xcred fd cacert untrusted w = res)
    (hreach : callCount isHandshakeSetTimeout w.trace
      < callCount isHandshakeSetTimeout res.world.trace) :
    ∃ w1, res = .unfinished w1 ∧
      callCount isHandshake w1.trace = callCount isHandshake w.trace + fuel ∧
      sleeps w1.trace = sleeps w.trace := by
  subst hres
  unfold GnuTLS.sslinit GnuTLS.newctx at hreach ⊢
  simp only [] at hreach ⊢
  by_cases hm : (perform E .malloc w).1.ret = 0
  · exfalso
    simp [hm, Run.world, isHandshakeSetTimeout] at hreach
  · simp only [hm, if_false] at hreach ⊢
    by_cases hp : cacert = 0 ∧ untrusted = 0
    · exfalso
      simp [hp, Run.world, isHandshakeSetTimeout] at hreach
    · simp only [hp, if_false] at hreach ⊢
      generalize hres : GnuTLS.sslinit_tls E _ _ _ _ _ _ = res at hreach ⊢
      obtain ⟨w1, i1, i2, i3⟩ := gnutls_sslinit_tls_transient E h _ _ _ _ _ _ _ hres
        (by simpa [isHandshakeSetTimeout] using hreach)
      exact ⟨w1, i1, by rw [i2]; simp [isHandshake], by rw [i3]; simp⟩

/-- When engine creation and the handshake succeed, the GnuTLS `sslinit` called
with `untrusted` set returns a session as soon as one handshake attempt is
allowed. -/
theorem gnutls_sslinit_success {σ : Type} (E : Env σ) (h : GnuTLS.EngineSucceeds E)
    (fuel : Nat) (xcred : Ptr) (fd : Int) (cacert : Ptr) (untrusted : Int)
    (hu : untrusted ≠ 0) (w : World σ) :
    ∃ x w1, GnuTLS.sslinit E (fuel + 1) xcred fd cacert untrusted w = .returned (some x) w1 := by
  obtain ⟨h1, h2, h3, h4, h5, h6, h7⟩ := h
  unfold GnuTLS.sslinit GnuTLS.newctx GnuTLS.sslinit_tls GnuTLS.sslinit_session
  simp only [perform_reply, h1, h2, h3, h4, h5, h6, hu, if_false, and_false, ne_eq,
    not_true_eq_false, not_false_eq_true, if_true]
  rw [gnutls_handshake_loop_success E _ _ _ (h7 _ _)]
  simp [not_lt.mpr (h7 _ _), perform_reply]

/-- When the bundle cannot be loaded while everything before succeeds, the
GnuTLS `sslinit` called with a cacert and `untrusted = 0` loads the bundle once
and returns `NULL`. -/
theorem gnutls_sslinit_bundle_fails {σ : Type} (E : Env σ) (h : GnuTLS.EngineSucceeds E)
    (hb : GnuTLS.BundleFails E) (fuel : Nat) (xcred : Ptr) (fd : Int) (cacert : Ptr)
    (hc : cacert ≠ 0) (w : World σ) :
    ∃ w1, GnuTLS.sslinit E fuel xcred fd cacert 0 w = .returned none w1 ∧
      callCount isTrustFile w1.trace = callCount isTrustFile w.trace + 1 := by
  obtain ⟨h1, h2, h3, -⟩ := h
  unfold GnuTLS.sslinit GnuTLS.newctx GnuTLS.sslinit_tls
  simp [perform_reply, h1, h2, h3, hc, hb _ _ _, GnuTLS.err3, GnuTLS.err2, GnuTLS.err1,
    GnuTLS.report, isTrustFile]

/-! ### C3: the handshake retry of `sslinit` -/

/-- At the always-transient engine the GnuTLS `sslinit` called with `untrusted`
set is still in its handshake loop whatever the number of attempts allowed,
having made that many `gnutls_handshake` calls and no sleep. -/
theorem gnutls_sslinit_transient_engine (fuel : Nat) :
    ∃ w, GnuTLS.sslinit envTransient fuel 0 3 0 1 (World.start ()) = .unfinished w ∧
      callCount isHandshake w.trace = fuel ∧ sleeps w.trace = [] := by
  have h : GnuTLS.HandshakeTransient envTransient :=
    ⟨fun _ _ => show (-28 : Int) < 0 by decide, fun _ _ => rfl⟩
  unfold GnuTLS.sslinit GnuTLS.newctx GnuTLS.sslinit_tls GnuTLS.sslinit_session
  simp only [perform, envTransient, Env.const, World.start]
  simp only [show ¬ ((4096 : Int) = 0) by decide, show ¬ ((0 : Int) = 0 ∧ (1 : Int) = 0) by decide,
    show ¬ ((0 : Int) ≠ 0) by decide, show ((1 : Int) ≠ 0) by decide, if_true, if_false]
  generalize hrun : GnuTLS.handshake_loop _ _ fuel _ = run
  obtain ⟨w1, i1, i2, i3⟩ := gnutls_handshake_loop_transient0 _ h _ _ _ _ hrun
  subst i1
  refine ⟨w1, rfl, ?_, ?_⟩
  · rw [i2]
    simp [isHandshake]
  · rw [i3]
    simp

/-- At the always-transient engine the OpenSSL `sslinit` called with `untrusted`
set reaches its handshake step. -/
theorem openssl_sslinit_transient_engine_reaches :
    0 < callCount isSSL_connect (OpenSSL.sslinit envTransient 3 0 1 (World.start ())).2.trace := by
  have h : OpenSSL.ConnectTransient envTransient :=
    ⟨fun _ _ => show ¬ ((-1 : Int) = 1) by decide, fun _ _ _ => Or.inl rfl⟩
  unfold OpenSSL.sslinit OpenSSL.newctx OpenSSL.sslinit_tls OpenSSL.sslinit_verify
  simp only [perform, envTransient, Env.const, World.start]
  simp only [show ¬ ((4096 : Int) = 0) by decide, show ¬ ((0 : Int) = 0 ∧ (1 : Int) = 0) by decide,
    show ¬ ((0 : Int) ≠ 0) by decide, show ((1 : Int) ≠ 0) by decide,
    show ¬ ((32 : Int) = 0) by decide, show ¬ ((48 : Int) = 0) by decide,
    show ¬ ((1 : Int) = 0) by decide, if_true, if_false, and_false, true_and]
  generalize hres : OpenSSL.sslinit_repeat _ _ 0 _ = res
  obtain ⟨-, i2, -⟩ := openssl_sslinit_repeat_transient0 _ h _ _ _ hres
  rw [i2]
  omega

/-- C3 as stated fails in the GnuTLS build: at an engine whose every handshake
attempt is transient, `sslinit` with `untrusted` set has, with 101 attempts
allowed, made 101 `gnutls_handshake` calls without a sleep and not returned;
and it has not returned whatever the number of attempts allowed. -/
theorem C3_gnutls_handshake_has_no_bound :
    GnuTLS.HandshakeTransient envTransient ∧
    (∃ w, GnuTLS.sslinit envTransient 101 0 3 0 1 (World.start ()) = .unfinished w ∧
      callCount isHandshake w.trace = 101 ∧ sleeps w.trace = []) ∧
    (∀ fuel r w, GnuTLS.sslinit envTransient fuel 0 3 0 1 (World.start ()) ≠ .returned r w) := by
  refine ⟨⟨fun _ _ => show (-28 : Int) < 0 by decide, fun _ _ => rfl⟩,
    gnutls_sslinit_transient_engine 101, fun fuel r w hr => ?_⟩
  obtain ⟨w1, h1, -⟩ := gnutls_sslinit_transient_engine fuel
  rw [h1] at hr
  cases hr

/-- C3, amended: the OpenSSL `sslinit` makes at most 100 `SSL_connect` calls,
and when every attempt is transient and the handshake step is reached it
returns `NULL` after exactly 100 attempts and 99 sleeps of 10000 microseconds;
the GnuTLS `sslinit` has no bound and no sleep in its handshake loop: when
every attempt is transient and the loop is reached, it is still running
whatever the number of attempts allowed, having made that many
`gnutls_handshake` calls. -/
theorem C3_handshake_retry {σ : Type} (E : Env σ) (s : σ) (fuel : Nat) (xcred : Ptr)
    (fd : Int) (cacert : Ptr) (untrusted : Int) :
    callCount isSSL_connect (OpenSSL.sslinit E fd cacert untrusted (World.start s)).2.trace
      ≤ 100 ∧
    (OpenSSL.ConnectTransient E →
      0 < callCount isSSL_connect
        (OpenSSL.sslinit E fd cacert untrusted (World.start s)).2.trace →
      (OpenSSL.sslinit E fd cacert untrusted (World.start s)).1 = none ∧
      callCount isSSL_connect (OpenSSL.sslinit E fd cacert untrusted (World.start s)).2.trace
        = 100 ∧
      sleeps (OpenSSL.sslinit E fd cacert untrusted (World.start s)).2.trace
        = List.replicate 99 10000) ∧
    (GnuTLS.HandshakeTransient E →
      0 < callCount isHandshakeSetTimeout
        (GnuTLS.sslinit E fuel xcred fd cacert untrusted (World.start s)).world.trace →
      ∃ w, GnuTLS.sslinit E fuel xcred fd cacert untrusted (World.start s) = .unfinished w ∧
        callCount isHandshake w.trace = fuel ∧ sleeps w.trace = []) := by
  refine ⟨?_, fun h hreach => ?_, fun h hreach => ?_⟩
  · have := (openssl_sslinit_effect E fd cacert untrusted (World.start s) _ rfl).1
    simpa [World.start] using this
  · have := openssl_sslinit_transient E h fd cacert untrusted (World.start s) _ rfl
      (by simpa [World.start] using hreach)
    simpa [World.start] using this
  · have := gnutls_sslinit_transient E h fuel xcred fd cacert untrusted (World.start s) _ rfl
      (by simpa [World.start] using hreach)
    simpa [World.start] using this

/-- C3 amended, at the always-transient engine: `sslinit` on descriptor 3 with
`untrusted` set, five attempts allowed to the GnuTLS handshake loop. -/
theorem C3_handshake_retry_witness :
    OpenSSL.ConnectTransient envTransient ∧ GnuTLS.HandshakeTransient envTransient ∧
    ((OpenSSL.sslinit envTransient 3 0 1 (World.start ())).1 = none ∧
      callCount isSSL_connect (OpenSSL.sslinit envTransient 3 0 1 (World.start ())).2.trace
        = 100 ∧
      sleeps (OpenSSL.sslinit envTransient 3 0 1 (World.start ())).2.trace
        = List.replicate 99 10000) ∧
    (∃ w, GnuTLS.sslinit envTransient 5 0 3 0 1 (World.start ()) = .unfinished w ∧
      callCount isHandshake w.trace = 5 ∧ sleeps w.trace = []) :=
  have hO : OpenSSL.ConnectTransient envTransient :=
    ⟨fun _ _ => show ¬ ((-1 : Int) = 1) by decide, fun _ _ _ => Or.inl rfl⟩
  have hG : GnuTLS.HandshakeTransient envTransient :=
    ⟨fun _ _ => show (-28 : Int) < 0 by decide, fun _ _ => rfl⟩
  have h := C3_handshake_retry envTransient () 5 0 3 0 1
  ⟨hO, hG, h.2.1 hO openssl_sslinit_transient_engine_reaches, h.2.2 hG (by decide)⟩

/-! ### Which stage failures make `sslinit` return `NULL` -/

/-- The last value of the calls of kind `p` in two traces put end to end. -/
theorem lastRet_append (p : Call → Bool) (t u : List Event) :
    lastRet p (t ++ u) = match lastRet p u with
      | some r => some r
      | none => lastRet p t := by
  have key : ∀ (u : List Event) (a : Option Int),
      u.foldl (fun acc e => if p e.call then some e.ret else acc) a
        = match u.foldl (fun acc e => if p e.call then some e.ret else acc) none with
          | some r => some r
          | none => a := by
    intro u
    induction u with
    | nil => intro a; rfl
    | cons e u ih =>
      intro a
      simp only [List.foldl_cons]
      rw [ih (if p e.call then some e.ret else a), ih (if p e.call then some e.ret else none)]
      generalize u.foldl (fun acc e => if p e.call then some e.ret else acc) none = o
      cases o <;> by_cases hp : p e.call = true <;> simp [hp]
  unfold lastRet
  rw [List.foldl_append]
  exact key u _

/-- The handshake step of the OpenSSL `sslinit` adds no failure of another
stage, and returns `NULL` exactly when the last `SSL_connect` did not return 1. -/
theorem openssl_sslinit_repeat_outcome {σ : Type} (E : Env σ) (x : OpenSSL.ctx) :
    ∀ (n c : Nat) (w : World σ), c + n = 99 →
      (OpenSSL.sslinit_repeat E x c w).2.trace.any OpenSSL.stageFailed
        = w.trace.any OpenSSL.stageFailed ∧
      (((OpenSSL.sslinit_repeat E x c w).1 = none ∧
          OpenSSL.connectFailed (OpenSSL.sslinit_repeat E x c w).2.trace = true) ∨
        ((OpenSSL.sslinit_repeat E x c w).1 = some x ∧
          OpenSSL.connectFailed (OpenSSL.sslinit_repeat E x c w).2.trace = false)) := by
  intro n
  induction n with
  | zero =>
    intro c w hc
    rw [OpenSSL.sslinit_repeat]
    simp only []
    split_ifs with h1 h2 h3
    · omega
    all_goals
      simp [OpenSSL.err3, OpenSSL.err2, OpenSSL.err1, OpenSSL.stageFailed,
        OpenSSL.connectFailed, lastRet_append, lastRet, isSSL_connect, *]
  | succ n ih =>
    intro c w hc
    rw [OpenSSL.sslinit_repeat]
    simp only []
    split_ifs with h1 h2 h3
    · obtain ⟨i1, i2⟩ := ih (c + 1) (perform E (.usleep 10000)
        (perform E (.SSL_get_error x.ssl (perform E (.SSL_connect x.ssl) w).1.ret)
          (perform E (.SSL_connect x.ssl) w).2).2).2 (by omega)
      refine ⟨?_, i2⟩
      rw [i1]
      simp [OpenSSL.stageFailed]
    all_goals
      simp [OpenSSL.err3, OpenSSL.err2, OpenSSL.err1, OpenSSL.stageFailed,
        OpenSSL.connectFailed, lastRet_append, lastRet, isSSL_connect, *]

/-- The handshake step of the OpenSSL `sslinit`, entered with a fresh counter,
seen from its result. -/
theorem openssl_sslinit_repeat_outcome0 {σ : Type} (E : Env σ) (x : OpenSSL.ctx)
    (w : World σ) (res : Option OpenSSL.ctx × World σ)
    (hres : OpenSSL.sslinit_repeat E x 0 w = res) :
    res.2.trace.any OpenSSL.stageFailed = w.trace.any OpenSSL.stageFailed ∧
    ((res.1 = none ∧ OpenSSL.connectFailed res.2.trace = true) ∨
      (res.1 = some x ∧ OpenSSL.connectFailed res.2.trace = false)) := by
  subst hres
  exact openssl_sslinit_repeat_outcome E x 99 0 w (by omega)

/-- Lines 99 to 133 of the OpenSSL `sslinit`, entered with no failed handshake
behind them: either a stage fails and they give `NULL`, or none fails and they
give a session. -/
theorem openssl_sslinit_verify_outcome {σ : Type} (E : Env σ) (x1 : OpenSSL.ctx)
    (untrusted : Int) (w : World σ) (res : Option OpenSSL.ctx × World σ)
    (hres : OpenSSL.sslinit_verify E x1 untrusted w = res)
    (hw : OpenSSL.connectFailed w.trace = false) :
    (res.1 = none ∧ OpenSSL.failed res.2.trace = true) ∨
    ((∃ x, res.1 = some x) ∧
      res.2.trace.any OpenSSL.stageFailed = w.trace.any OpenSSL.stageFailed ∧
      OpenSSL.connectFailed res.2.trace = false) := by
  subst hres
  unfold OpenSSL.sslinit_verify
  simp only []
  split_ifs with h1 h2 h3 h4 h5
  all_goals first
    | (generalize hres : OpenSSL.sslinit_repeat E _ 0 _ = res
       obtain ⟨i1, i2⟩ := openssl_sslinit_repeat_outcome0 E _ _ _ hres
       rcases i2 with ⟨a, b⟩ | ⟨a, b⟩
       · exact Or.inl ⟨a, by simp [OpenSSL.failed, b]⟩
       · exact Or.inr ⟨⟨_, a⟩, by rw [i1]; simp [OpenSSL.stageFailed, *], b⟩)
    | (left
       simp [OpenSSL.err3, OpenSSL.err2, OpenSSL.err1, OpenSSL.failed, OpenSSL.stageFailed, *])

/-- Lines 76 to 133 of the OpenSSL `sslinit`, entered with no failed handshake
behind them: either a stage fails and they give `NULL`, or none fails and they
give a session. -/
theorem openssl_sslinit_tls_outcome {σ : Type} (E : Env σ) (x0 : OpenSSL.ctx) (cacert : Ptr)
    (untrusted : Int) (w : World σ) (res : Option OpenSSL.ctx × World σ)
    (hres : OpenSSL.sslinit_tls E x0 cacert untrusted w = res)
    (hw : OpenSSL.connectFailed w.trace = false) :
    (res.1 = none ∧ OpenSSL.failed res.2.trace = true) ∨
    ((∃ x, res.1 = some x) ∧
      res.2.trace.any OpenSSL.stageFailed = w.trace.any OpenSSL.stageFailed ∧
      OpenSSL.connectFailed res.2.trace = false) := by
  subst hres
  unfold OpenSSL.sslinit_tls
  simp only []
  split_ifs with h1 h2 h3
  all_goals first
    | (generalize hres : OpenSSL.sslinit_verify E _ _ _ = res
       rcases openssl_sslinit_verify_outcome E _ _ _ _ hres
         (by simpa [OpenSSL.connectFailed, lastRet_append, lastRet, isSSL_connect] using hw)
         with ⟨a, b⟩ | ⟨a, b, c⟩
       · exact Or.inl ⟨a, b⟩
       · exact Or.inr ⟨a, by rw [b]; simp [OpenSSL.stageFailed, *], c⟩)
    | (left
       simp [OpenSSL.err3, OpenSSL.err2, OpenSSL.err1, OpenSSL.failed, OpenSSL.stageFailed, *])

/-- The OpenSSL `sslinit`, started on an empty trace, returns `NULL` exactly
when one of its stages fails: `malloc`, `SSL_CTX_new`, the bundle load,
`SSL_new`, `SSL_set_fd` or the handshake. -/
theorem openssl_sslinit_outcome {σ : Type} (E : Env σ) (fd : Int) (cacert : Ptr)
    (untrusted : Int) (w : World σ) (ht : w.trace = []) :
    (OpenSSL.sslinit E fd cacert untrusted w).1 = none ↔
      OpenSSL.failed (OpenSSL.sslinit E fd cacert untrusted w).2.trace = true := by
  unfold OpenSSL.sslinit OpenSSL.newctx
  simp only []
  by_cases hm : (perform E .malloc w).1.ret = 0
  · simp only [hm, if_true]
    simp [OpenSSL.failed, OpenSSL.stageFailed, ht, hm]
  · simp only [hm, if_false]
    by_cases hp : cacert = 0 ∧ untrusted = 0
    · simp only [hp, and_self, if_true]
      simp [OpenSSL.failed, OpenSSL.stageFailed, OpenSSL.connectFailed, lastRet,
        isSSL_connect, ht, hm]
    · simp only [hp, if_false]
      generalize hres : OpenSSL.sslinit_tls E _ _ _ _ = res
      rcases openssl_sslinit_tls_outcome E _ _ _ _ _ hres
        (by simp [OpenSSL.connectFailed, lastRet, isSSL_connect, ht])
        with ⟨a, b⟩ | ⟨⟨x, a⟩, b, c⟩
      · simp [a, b]
      · have hb : res.2.trace.any OpenSSL.stageFailed = false := by
          rw [b]
          simp [OpenSSL.stageFailed, ht, hm]
        simp [a, OpenSSL.failed, hb, c]

/-- How the GnuTLS handshake loop ends: with an error that
`gnutls_error_is_fatal` declared fatal, or with a handshake that reports no
error and no new stage failure, or still running with no new stage failure. -/
theorem gnutls_handshake_loop_outcome {σ : Type} (E : Env σ) (ssl : Ptr) :
    ∀ (fuel : Nat) (w : World σ),
      (∃ r w1, GnuTLS.handshake_loop E ssl fuel w = .returned r w1 ∧ r < 0 ∧
        w1.trace.any GnuTLS.stageFailed = true) ∨
      (∃ r w1, GnuTLS.handshake_loop E ssl fuel w = .returned r w1 ∧ 0 ≤ r ∧
        w1.trace.any GnuTLS.stageFailed = w.trace.any GnuTLS.stageFailed) ∨
      (∃ w1, GnuTLS.handshake_loop E ssl fuel w = .unfinished w1 ∧
        w1.trace.any GnuTLS.stageFailed = w.trace.any GnuTLS.stageFailed) := by
  intro fuel
  induction fuel with
  | zero =>
    intro w
    exact Or.inr (Or.inr ⟨w, rfl, rfl⟩)
  | succ fuel ih =>
    intro w
    rw [GnuTLS.handshake_loop]
    simp only []
    split_ifs with h1 h2
    · rcases ih (perform E (.gnutls_error_is_fatal (perform E (.gnutls_handshake ssl) w).1.ret)
        (perform E (.gnutls_handshake ssl) w).2).2 with ⟨r, w1, a, b, c⟩ | ⟨r, w1, a, b, c⟩ |
        ⟨w1, a, c⟩
      · exact Or.inl ⟨r, w1, a, b, c⟩
      · exact Or.inr (Or.inl ⟨r, w1, a, b, by rw [c]; simp [GnuTLS.stageFailed, h2]⟩)
      · exact Or.inr (Or.inr ⟨w1, a, by rw [c]; simp [GnuTLS.stageFailed, h2]⟩)
    · exact Or.inl ⟨_, _, rfl, h1, by simp [GnuTLS.stageFailed, h2]⟩
    · exact Or.inr (Or.inl ⟨_, _, rfl, not_lt.mp h1, by simp [GnuTLS.stageFailed]⟩)

/-- The GnuTLS handshake loop, seen from its result. -/
theorem gnutls_handshake_loop_outcome0 {σ : Type} (E : Env σ) (ssl : Ptr) (fuel : Nat)
    (w : World σ) (run : Run Int σ) (hrun : GnuTLS.handshake_loop E ssl fuel w = run) :
    (∃ r w1, run = .returned r w1 ∧ r < 0 ∧ w1.trace.any GnuTLS.stageFailed = true) ∨
    (∃ r w1, run = .returned r w1 ∧ 0 ≤ r ∧
      w1.trace.any GnuTLS.stageFailed = w.trace.any GnuTLS.stageFailed) ∨
    (∃ w1, run = .unfinished w1 ∧
      w1.trace.any GnuTLS.stageFailed = w.trace.any GnuTLS.stageFailed) := by
  subst hrun
  exact gnutls_handshake_loop_outcome E ssl fuel w

/-- Lines 303 to 343 of the GnuTLS `sslinit`: either a stage fails and they
return `NULL`, or none fails and they return a session, or none has failed and
the handshake loop is still running. -/
theorem gnutls_sslinit_session_outcome {σ : Type} (E : Env σ) (fuel : Nat) (x1 : GnuTLS.ctx)
    (w : World σ) (res : Run (Option GnuTLS.ctx) σ)
    (hres : GnuTLS.sslinit_session E fuel x1 w = res) :
    (∃ w1, res = .returned none w1 ∧ w1.trace.any GnuTLS.stageFailed = true) ∨
    (∃ x w1, res = .returned (some x) w1 ∧
      w1.trace.any GnuTLS.stageFailed = w.trace.any GnuTLS.stageFailed) ∨
    (∃ w1, res = .unfinished w1 ∧
      w1.trace.any GnuTLS.stageFailed = w.trace.any GnuTLS.stageFailed) := by
  subst hres
  unfold GnuTLS.sslinit_session
  simp only []
  split_ifs with h1 h2 h3
  all_goals try simp only [ne_eq, not_not] at *
  · left
    simp [-List.any_eq_true, GnuTLS.err4, GnuTLS.err3, GnuTLS.err2, GnuTLS.err1,
      GnuTLS.report, GnuTLS.stageFailed, *]
  · left
    simp [-List.any_eq_true, GnuTLS.err4, GnuTLS.err3, GnuTLS.err2, GnuTLS.err1,
      GnuTLS.report, GnuTLS.stageFailed, GNUTLS_E_INVALID_REQUEST, *]
  · left
    simp [-List.any_eq_true, GnuTLS.err4, GnuTLS.err3, GnuTLS.err2, GnuTLS.err1,
      GnuTLS.report, GnuTLS.stageFailed, *]
  · left
    simp [-List.any_eq_true, GnuTLS.err4, GnuTLS.err3, GnuTLS.err2, GnuTLS.err1,
      GnuTLS.report, GnuTLS.stageFailed, *]
  · generalize hrun : GnuTLS.handshake_loop E _ fuel _ = run
    rcases gnutls_handshake_loop_outcome0 E _ _ _ _ hrun with ⟨r, w1, a, b, c⟩ |
      ⟨r, w1, a, b, c⟩ | ⟨w1, a, c⟩
    · subst a
      left
      simp [-List.any_eq_true, b, GnuTLS.err4, GnuTLS.err3, GnuTLS.err2, GnuTLS.err1,
        GnuTLS.report, c]
    · subst a
      right; left
      simp only [not_lt.mpr b, if_false]
      refine ⟨_, _, rfl, ?_⟩
      rw [c]
      simp [-List.any_eq_true, GnuTLS.stageFailed, *]
    · subst a
      right; right
      refine ⟨_, rfl, ?_⟩
      rw [c]
      simp [-List.any_eq_true, GnuTLS.stageFailed, *]

/-- Lines 266 to 343 of the GnuTLS `sslinit`: either a stage fails and they
return `NULL`, or none fails and they return a session, or none has failed and
the handshake loop is still running. -/
theorem gnutls_sslinit_tls_outcome {σ : Type} (E : Env σ) (fuel : Nat) (xcred : Ptr)
    (x0 : GnuTLS.ctx) (cacert : Ptr) (untrusted : Int) (w : World σ)
    (res : Run (Option GnuTLS.ctx) σ)
    (hres : GnuTLS.sslinit_tls E fuel xcred x0 cacert untrusted w = res) :
    (∃ w1, res = .returned none w1 ∧ w1.trace.any GnuTLS.stageFailed = true) ∨
    (∃ x w1, res = .returned (some x) w1 ∧
      w1.trace.any GnuTLS.stageFailed = w.trace.any GnuTLS.stageFailed) ∨
    (∃ w1, res = .unfinished w1 ∧
      w1.trace.any GnuTLS.stageFailed = w.trace.any GnuTLS.stageFailed) := by
  subst hres
  unfold GnuTLS.sslinit_tls
  simp only []
  split_ifs with h1 h2 h3 h4
  all_goals try simp only [ne_eq, not_not] at *
  all_goals first
    | (generalize hres : GnuTLS.sslinit_session E _ _ _ = res
       rcases gnutls_sslinit_session_outcome E _ _ _ _ hres with ⟨w1, a, c⟩ |
         ⟨x, w1, a, c⟩ | ⟨w1, a, c⟩
       · exact Or.inl ⟨w1, a, c⟩
       · exact Or.inr (Or.inl ⟨x, w1, a, by rw [c]; simp [GnuTLS.stageFailed, *]⟩)
       · exact Or.inr (Or.inr ⟨w1, a, by rw [c]; simp [GnuTLS.stageFailed, *]⟩))
    | (left
       simp [-List.any_eq_true, GnuTLS.err4, GnuTLS.err3, GnuTLS.err2, GnuTLS.err1,
         GnuTLS.report, GnuTLS.stageFailed, *])

/-- The GnuTLS `sslinit`, started on an empty trace: a stage has failed exactly
when it returns `NULL`, whatever the number of handshake attempts allowed. -/
theorem gnutls_sslinit_outcome {σ : Type} (E : Env σ) (fuel : Nat) (xcred : Ptr) (fd : Int)
    (cacert : Ptr) (untrusted : Int) (w : World σ) (ht : w.trace = []) :
    GnuTLS.failed (GnuTLS.sslinit E fuel xcred fd cacert untrusted w).world.trace = true ↔
      ∃ w1, GnuTLS.sslinit E fuel xcred fd cacert untrusted w = .returned none w1 := by
  unfold GnuTLS.sslinit GnuTLS.newctx GnuTLS.failed
  simp only []
  by_cases hm : (perform E .malloc w).1.ret = 0
  · simp only [hm, if_true]
    simp [Run.world, GnuTLS.stageFailed, ht, hm]
  · simp only [hm, if_false]
    by_cases hp : cacert = 0 ∧ untrusted = 0
    · simp only [hp, and_self, if_true]
      simp [Run.world, GnuTLS.stageFailed, ht, hm]
    · simp only [hp, if_false]
      generalize hres : GnuTLS.sslinit_tls E _ _ _ _ _ _ = res
      have h0 : (perform E .malloc w).2.trace.any GnuTLS.stageFailed = false := by
        simp [GnuTLS.stageFailed, ht, hm]
      rcases gnutls_sslinit_tls_outcome E _ _ _ _ _ _ _ hres with ⟨w1, a, c⟩ |
        ⟨x, w1, a, c⟩ | ⟨w1, a, c⟩
      · subst a
        simp [Run.world, c]
      · subst a
        rw [h0] at c
        simp [Run.world, c]
      · subst a
        rw [h0] at c
        simp [Run.world, c]

/-! ### C4: release on initialization failure -/

/-- C4: in the OpenSSL and in the GnuTLS build, `sslinit` returns `NULL` exactly
when one of its stages fails (session memory, engine context or credentials,
trust-anchor bundle, engine session, binding of the descriptor, priority and
credential setup, handshake), in the GnuTLS build whatever the number of
handshake attempts allowed; whenever it returns `NULL` the objects it released
are exactly the objects it had acquired, each once, in the reverse order of
their acquisition; and `sslinit` never calls `close`, whatever its outcome. -/
theorem C4_release_on_failure {σ : Type} (E : Env σ) (s : σ) (fuel : Nat) (xcred : Ptr)
    (fd : Int) (cacert : Ptr) (untrusted : Int) :
    ((OpenSSL.failed (OpenSSL.sslinit E fd cacert untrusted (World.start s)).2.trace = true ↔
        (OpenSSL.sslinit E fd cacert untrusted (World.start s)).1 = none) ∧
      ((OpenSSL.sslinit E fd cacert untrusted (World.start s)).1 = none →
        (acquired (OpenSSL.sslinit E fd cacert untrusted (World.start s)).2.trace).Nodup ∧
        released (OpenSSL.sslinit E fd cacert untrusted (World.start s)).2.trace
          = (acquired (OpenSSL.sslinit E fd cacert untrusted (World.start s)).2.trace).reverse) ∧
      callCount isClose (OpenSSL.sslinit E fd cacert untrusted (World.start s)).2.trace = 0) ∧
    ((GnuTLS.failed
          (GnuTLS.sslinit E fuel xcred fd cacert untrusted (World.start s)).world.trace = true ↔
        ∃ w, GnuTLS.sslinit E fuel xcred fd cacert untrusted (World.start s)
          = .returned none w) ∧
      (∀ w, GnuTLS.sslinit E fuel xcred fd cacert untrusted (World.start s) = .returned none w →
        (acquired w.trace).Nodup ∧ released w.trace = (acquired w.trace).reverse) ∧
      callCount isClose
        (GnuTLS.sslinit E fuel xcred fd cacert untrusted (World.start s)).world.trace = 0) := by
  refine ⟨⟨?_, fun hn => ?_, ?_⟩, ⟨?_, fun w hw => ?_, ?_⟩⟩
  · exact (openssl_sslinit_outcome E fd cacert untrusted (World.start s) rfl).symm
  · obtain ⟨-, -, -, -, acq, i1, i2, i3⟩ :=
      openssl_sslinit_effect E fd cacert untrusted (World.start s) _ rfl
    simp only [World.start, acquired_nil, released_nil, List.nil_append] at i1 i3
    simp only [World.start] at hn
    rcases i3 with ⟨-, b⟩ | ⟨⟨x, a⟩, -⟩
    · simp only [World.start]
      rw [i1, b]
      exact ⟨i2, rfl⟩
    · rw [hn] at a
      cases a
  · have := (openssl_sslinit_effect E fd cacert untrusted (World.start s) _ rfl).2.1
    simpa [World.start] using this
  · exact gnutls_sslinit_outcome E fuel xcred fd cacert untrusted (World.start s) rfl
  · obtain ⟨-, -, acq, i1, i2, i3⟩ :=
      gnutls_sslinit_effect E fuel xcred fd cacert untrusted (World.start s) _ rfl
    rw [hw] at i1 i3
    simp only [World.start, Run.world, acquired_nil, released_nil, List.nil_append] at i1 i3
    rw [i1, i3 ⟨w, rfl⟩]
    exact ⟨i2, rfl⟩
  · have := (gnutls_sslinit_effect E fuel xcred fd cacert untrusted (World.start s) _ rfl).1
    simpa [World.start] using this

/-- C4 in the environment where the binding of the descriptor fails in OpenSSL
and the priority setup fails in GnuTLS: `sslinit` on descriptor 3 with a cacert
and `untrusted = 0` returns `NULL` and releases what it had acquired, last
acquired first. -/
theorem C4_release_on_failure_witness :
    OpenSSL.failed (OpenSSL.sslinit envBindFails 3 7 0 (World.start ())).2.trace = true ∧
    (OpenSSL.sslinit envBindFails 3 7 0 (World.start ())).1 = none ∧
    acquired (OpenSSL.sslinit envBindFails 3 7 0 (World.start ())).2.trace
      = [.memory 4096, .ssl_ctx 32, .ssl 48] ∧
    released (OpenSSL.sslinit envBindFails 3 7 0 (World.start ())).2.trace
      = (acquired (OpenSSL.sslinit envBindFails 3 7 0 (World.start ())).2.trace).reverse ∧
    GnuTLS.failed (GnuTLS.sslinit envBindFails 0 0 3 7 0 (World.start ())).world.trace = true ∧
    (∃ w, GnuTLS.sslinit envBindFails 0 0 3 7 0 (World.start ()) = .returned none w) ∧
    acquired (GnuTLS.sslinit envBindFails 0 0 3 7 0 (World.start ())).world.trace
      = [.memory 4096, .global, .credentials 32, .session 48] ∧
    released (GnuTLS.sslinit envBindFails 0 0 3 7 0 (World.start ())).world.trace
      = (acquired (GnuTLS.sslinit envBindFails 0 0 3 7 0 (World.start ())).world.trace).reverse :=
  have h := C4_release_on_failure envBindFails () 0 0 3 7 0
  have hO : OpenSSL.failed (OpenSSL.sslinit envBindFails 3 7 0 (World.start ())).2.trace = true :=
    by decide
  have hG : GnuTLS.failed
      (GnuTLS.sslinit envBindFails 0 0 3 7 0 (World.start ())).world.trace = true := by decide
  ⟨hO, h.1.1.mp hO, by decide, (h.1.2.1 (h.1.1.mp hO)).2, hG, h.2.1.mp hG, by decide,
    (h.2.2.1 _ rfl).2⟩

/-! ### The verification policy set before the engine session is created -/

/-- Lines 99 to 133 of the OpenSSL `sslinit` call `SSL_new` once. -/
theorem openssl_sslinit_verify_new {σ : Type} (E : Env σ) (x1 : OpenSSL.ctx)
    (untrusted : Int) (w : World σ) (res : Option OpenSSL.ctx × World σ)
    (hres : OpenSSL.sslinit_verify E x1 untrusted w = res) :
    callCount isSSL_new w.trace < callCount isSSL_new res.2.trace := by
  subst hres
  have key : ∀ (x : OpenSSL.ctx) (w1 : World σ),
      callCount isSSL_new w1.trace ≤ callCount isSSL_new (OpenSSL.sslinit_repeat E x 0 w1).2.trace := by
    intro x w1
    have : ∀ (n c : Nat) (w2 : World σ), c + n = 99 →
        callCount isSSL_new w2.trace
          ≤ callCount isSSL_new (OpenSSL.sslinit_repeat E x c w2).2.trace := by
      intro n
      induction n with
      | zero =>
        intro c w2 hc
        rw [OpenSSL.sslinit_repeat]
        simp only []
        split_ifs with h1 h2 h3
        · omega
        all_goals simp [OpenSSL.err3, OpenSSL.err2, OpenSSL.err1, isSSL_new]
      | succ n ih =>
        intro c w2 hc
        rw [OpenSSL.sslinit_repeat]
        simp only []
        split_ifs with h1 h2 h3
        · refine le_trans ?_ (ih (c + 1) _ (by omega))
          simp [isSSL_new]
        all_goals simp [OpenSSL.err3, OpenSSL.err2, OpenSSL.err1, isSSL_new]
    exact this 99 0 w1 (by omega)
  unfold OpenSSL.sslinit_verify
  simp only []
  split_ifs
  all_goals first
    | (refine lt_of_lt_of_le ?_ (key _ _)
       simp [isSSL_new])
    | simp [OpenSSL.err3, OpenSSL.err2, OpenSSL.err1, isSSL_new]

/-- Lines 76 to 133 of the OpenSSL `sslinit`: when they call `SSL_new` or return
a session, `SSL_CTX_set_verify` has been called once, with the mode that
follows `untrusted`, and the bundle has been loaded exactly when a cacert was
given. -/
theorem openssl_sslinit_tls_policy {σ : Type} (E : Env σ) (x0 : OpenSSL.ctx) (cacert : Ptr)
    (untrusted : Int) (w : World σ) (res : Option OpenSSL.ctx × World σ)
    (hres : OpenSSL.sslinit_tls E x0 cacert untrusted w = res)
    (hreach : callCount isSSL_new w.trace < callCount isSSL_new res.2.trace ∨
      ∃ x, res.1 = some x) :
    callCount isSSL_new w.trace < callCount isSSL_new res.2.trace ∧
    verifyModes res.2.trace
      = verifyModes w.trace
        ++ [if untrusted ≠ 0 then .SSL_VERIFY_NONE else .SSL_VERIFY_PEER] ∧
    callCount isLoadVerify res.2.trace
      = callCount isLoadVerify w.trace + (if cacert ≠ 0 then 1 else 0) := by
  subst hres
  unfold OpenSSL.sslinit_tls at hreach ⊢
  simp only [] at hreach ⊢
  split_ifs at hreach ⊢ with h1 h2 h3
  all_goals first
    | (exfalso
       simp [OpenSSL.err3, OpenSSL.err2, OpenSSL.err1, isSSL_new] at hreach
       done)
    | (clear hreach
       generalize hres : OpenSSL.sslinit_verify E _ _ _ = res
       obtain ⟨-, -, i3, i4, -⟩ := openssl_sslinit_verify_effect E _ _ _ _ hres
       have i5 := openssl_sslinit_verify_new E _ _ _ _ hres
       refine ⟨lt_of_le_of_lt (by simp [isSSL_new]) i5, by rw [i4]; simp [verifyModes_one, *],
         by rw [i3]; simp [isLoadVerify, *]⟩)

/-- The OpenSSL `sslinit`: when it calls `SSL_new`, or returns a session after
TLS was requested, `SSL_CTX_set_verify` has been called once, with the mode
that follows `untrusted`, and the bundle has been loaded exactly when a cacert
was given. -/
theorem openssl_sslinit_policy {σ : Type} (E : Env σ) (fd : Int) (cacert : Ptr)
    (untrusted : Int) (w : World σ) (res : Option OpenSSL.ctx × World σ)
    (hres : OpenSSL.sslinit E fd cacert untrusted w = res)
    (hreach : callCount isSSL_new w.trace < callCount isSSL_new res.2.trace ∨
      ((∃ x, res.1 = some x) ∧ ¬ (cacert = 0 ∧ untrusted = 0))) :
    callCount isSSL_new w.trace < callCount isSSL_new res.2.trace ∧
    verifyModes res.2.trace
      = verifyModes w.trace
        ++ [if untrusted ≠ 0 then .SSL_VERIFY_NONE else .SSL_VERIFY_PEER] ∧
    callCount isLoadVerify res.2.trace
      = callCount isLoadVerify w.trace + (if cacert ≠ 0 then 1 else 0) := by
  subst hres
  unfold OpenSSL.sslinit OpenSSL.newctx at hreach ⊢
  simp only [] at hreach ⊢
  by_cases hm : (perform E .malloc w).1.ret = 0
  · exfalso
    simp [hm, isSSL_new] at hreach
  · simp only [hm, if_false] at hreach ⊢
    by_cases hp : cacert = 0 ∧ untrusted = 0
    · exfalso
      simp [hp, isSSL_new] at hreach
    · simp only [hp, if_false, not_false_eq_true, and_true] at hreach ⊢
      generalize hres : OpenSSL.sslinit_tls E _ _ _ _ = res at hreach ⊢
      obtain ⟨i1, i2, i3⟩ := openssl_sslinit_tls_policy E _ _ _ _ _ hres
        (by rcases hreach with h | h
            · exact Or.inl (by simpa [isSSL_new] using h)
            · exact Or.inr h)
      exact ⟨lt_of_le_of_lt (by simp [isSSL_new]) i1, by rw [i2]; simp [verifyModes_one],
        by rw [i3]; simp [isLoadVerify]⟩

/-- Lines 266 to 343 of the GnuTLS `sslinit`: when they call `gnutls_init`, the
cacert bundle has been loaded and the verify function installed, once each,
exactly when `untrusted` is 0. -/
theorem gnutls_sslinit_tls_policy {σ : Type} (E : Env σ) (fuel : Nat) (xcred : Ptr)
    (x0 : GnuTLS.ctx) (cacert : Ptr) (untrusted : Int) (w : World σ)
    (res : Run (Option GnuTLS.ctx) σ)
    (hres : GnuTLS.sslinit_tls E fuel xcred x0 cacert untrusted w = res)
    (hreach : callCount isGnutlsInit w.trace < callCount isGnutlsInit res.world.trace) :
    callCount isTrustFile res.world.trace
      = callCount isTrustFile w.trace + (if untrusted ≠ 0 then 0 else 1) ∧
    callCount isSetVerifyFunction res.world.trace
      = callCount isSetVerifyFunction w.trace + (if untrusted ≠ 0 then 0 else 1) := by
  subst hres
  unfold GnuTLS.sslinit_tls at hreach ⊢
  simp only [] at hreach ⊢
  split_ifs at hreach ⊢
  all_goals first
    | (exfalso
       simp [GnuTLS.err4, GnuTLS.err3, GnuTLS.err2, GnuTLS.err1, GnuTLS.report, Run.world,
         isGnutlsInit] at hreach
       done)
    | (clear hreach
       generalize hres : GnuTLS.sslinit_session E _ _ _ = res
       obtain ⟨-, i2, i3, -⟩ := gnutls_sslinit_session_effect E _ _ _ _ hres
       exact ⟨by rw [i2]; simp [isTrustFile, *], by rw [i3]; simp [isSetVerifyFunction, *]⟩)

/-- The GnuTLS `sslinit`: when it calls `gnutls_init`, the cacert bundle has
been loaded and the verify function installed, once each, exactly when
`untrusted` is 0. -/
theorem gnutls_sslinit_policy {σ : Type} (E : Env σ) (fuel : Nat) (xcred : Ptr) (fd : Int)
    (cacert : Ptr) (untrusted : Int) (w : World σ) (res : Run (Option GnuTLS.ctx) σ)
    (hres : GnuTLS.sslinit E fuel xcred fd cacert untrusted w = res)
    (hreach : callCount isGnutlsInit w.trace < callCount isGnutlsInit res.world.trace) :
    callCount isTrustFile res.world.trace
      = callCount isTrustFile w.trace + (if untrusted ≠ 0 then 0 else 1) ∧
    callCount isSetVerifyFunction res.world.trace
      = callCount isSetVerifyFunction w.trace + (if untrusted ≠ 0 then 0 else 1) := by
  subst hres
  unfold GnuTLS.sslinit GnuTLS.newctx at hreach ⊢
  simp only [] at hreach ⊢
  by_cases hm : (perform E .malloc w).1.ret = 0
  · exfalso
    simp [hm, Run.world, isGnutlsInit] at hreach
  · simp only [hm, if_false] at hreach ⊢
    by_cases hp : cacert = 0 ∧ untrusted = 0
    · exfalso
      simp [hp, Run.world, isGnutlsInit] at hreach
    · simp only [hp, if_false] at hreach ⊢
      generalize hres : GnuTLS.sslinit_tls E _ _ _ _ _ _ = res at hreach ⊢
      obtain ⟨i1, i2⟩ := gnutls_sslinit_tls_policy E _ _ _ _ _ _ _ hres
        (by simpa [isGnutlsInit] using hreach)
      exact ⟨by rw [i1]; simp [isTrustFile], by rw [i2]; simp [isSetVerifyFunction]⟩

/-! ### C8: the trust policy of `sslinit` -/

